import Mathlib

/-!
Verification of the command-execution session and control-loop core of the
RepoLaunch repository (src/launch/runtime.py and the organize agents in
src/launch/agent/organize/), as a shallow embedding in Lean 4.

Python strings are modelled as `List Char`; Python exceptions as an explicit
`Except PyErr` result; external collaborators (the Docker container stream,
the language model, the web-search tool, the sandboxed parser runner) are
parameters of the embedded functions, mirroring the component boundary drawn
by the specification.
-/

/-- Python exception kinds that the embedded code can raise. -/
inductive PyErr where
  | valueError
  | typeError
  | attributeError
  | overflowError
  | nameError
  | jsonDecodeError
deriving DecidableEq

/-- Python slicing `l[i:j]` for nonnegative bounds: elements `i, …, j-1`. -/
def listSlice (l : List Char) (i j : Nat) : List Char :=
  (l.take j).drop i

/-- Python slicing `l[-n:]` for a positive `n` (the source always uses
positive constants); when `n` is at least the length this is the whole
list, matching Python. -/
def pyTakeLast (n : Nat) (l : List α) : List α :=
  l.drop (l.length - n)

/-- `str.replace("\r", "")` from `CommandResult.to_observation`
(src/launch/runtime.py line 136): removes every carriage return. -/
def removeCR (l : List Char) : List Char :=
  l.filter (fun c => c ≠ '\r')

/- ## The ANSI escape regex of CommandResult.to_observation

The pattern (runtime.py line 134) is ESC followed by either one character in
the class 0x40–0x5A or 0x5C–0x5F, or by a bracket, a run of the class
0x30–0x3F, a run of the class 0x20–0x2F and one character of 0x40–0x7E.
The three classes of the bracketed alternative are pairwise disjoint ranges,
so the greedy match never backtracks: the match length at a position is
determined by maximal munch. -/

/-- Membership in the regex class `[@-Z\\-_]` (0x40–0x5A or 0x5C–0x5F). -/
def escSingleFinal (c : Char) : Bool :=
  ('@' ≤ c ∧ c ≤ 'Z') ∨ ('\\' ≤ c ∧ c ≤ '_')

/-- Membership in the regex class `[0-?]` (0x30–0x3F). -/
def csiParamChar (c : Char) : Bool := '0' ≤ c ∧ c ≤ '?'

/-- Membership in the regex class 0x20–0x2F. -/
def csiInterChar (c : Char) : Bool := ' ' ≤ c ∧ c ≤ '/'

/-- Membership in the regex class `[@-~]` (0x40–0x7E). -/
def csiFinalChar (c : Char) : Bool := '@' ≤ c ∧ c ≤ '~'

/-- Length of the leftmost ANSI-escape match starting exactly at the head of
`l`, if any: either `ESC` followed by one char of `[@-Z\\-_]`, or
`ESC [` followed by runs of the param and intermediate classes and one final char. -/
def ansiMatchLen (l : List Char) : Option Nat :=
  match l with
  | '\x1B' :: c :: rest =>
    if escSingleFinal c then some 2
    else if c = '[' then
      let params := rest.takeWhile csiParamChar
      let afterParams := rest.drop params.length
      let inters := afterParams.takeWhile csiInterChar
      match afterParams.drop inters.length with
      | f :: _ => if csiFinalChar f then some (2 + params.length + inters.length + 1) else none
      | [] => none
    else none
  | _ => none

/-- One pass of `ANSI_ESCAPE.sub("", s)`: scan left to right, removing each
match and resuming after it (fuel-driven; `fuel = l.length` always
suffices because every step consumes at least one character). -/
def ansiSubAux : Nat → List Char → List Char
  | 0, l => l
  | _ + 1, [] => []
  | fuel + 1, c :: rest =>
    match ansiMatchLen (c :: rest) with
    | some n => ansiSubAux fuel ((c :: rest).drop n)
    | none => c :: ansiSubAux fuel rest

/-- `ANSI_ESCAPE.sub("", s)` from `to_observation` (runtime.py line 136). -/
def ansiSub (l : List Char) : List Char :=
  ansiSubAux l.length l

/-- The truncation marker inserted by `to_observation`
(runtime.py line 141): `"....stripped due to length....\n"`. -/
def strippedMarker : List Char :=
  "....stripped due to length....\n".data

/-- The escape-stripping and carriage-return-removal part of
`to_observation` (runtime.py line 136). -/
def sanitizeOutput (s : List Char) : List Char :=
  removeCR (ansiSub s)

/-- The head/tail truncation of `to_observation` (runtime.py lines 138–143):
outputs longer than `1024 * 8` keep the first and last `1024 * 4`
characters around the marker. -/
def stripLong (s : List Char) : List Char :=
  if 1024 * 8 < s.length then
    s.take (1024 * 4) ++ strippedMarker ++ pyTakeLast (1024 * 4) s
  else s

/-- The full display sanitization applied by `to_observation` when
`strip=True`: escape stripping, carriage-return removal, then truncation. -/
def sanitizeDisplay (s : List Char) : List Char :=
  stripLong (sanitizeOutput s)

/- ## JSON values as produced by Python json.loads

Integer literals become exact Python ints; float literals and the
non-standard constants NaN, Infinity, -Infinity become Python floats.
Python floats are modelled exactly: a finite float is carried as the exact
decimal value of its literal, `mant * 10 ^ exp` (binary rounding is not
modelled — it never changes whether a value is an integer-convertible
finite float), while overflow of the decimal-to-double conversion to an
infinity, which is what decides the raise behaviour of `int(float(...))`,
is modelled exactly by the IEEE round-to-nearest-even overflow threshold
`2^1024 - 2^970`. -/

/-- An exact decimal value `mant * 10 ^ exp`, not normalized. -/
structure Dec10 where
  mant : Int
  exp : Int
deriving DecidableEq

/-- The smallest magnitude at which decimal-to-double conversion with
round-to-nearest-even overflows to infinity. -/
def ovNat : Nat := 2 ^ 1024 - 2 ^ 970

/-- Whether `|mant * 10 ^ exp|` reaches the overflow threshold. -/
def dec10Overflows (d : Dec10) : Bool :=
  let a := d.mant.natAbs
  if 0 ≤ d.exp then ovNat ≤ a * 10 ^ d.exp.toNat
  else ovNat * 10 ^ (-d.exp).toNat ≤ a

/-- Python float values. -/
inductive PyFloat where
  | finite (d : Dec10)
  | inf (neg : Bool)
  | nan
deriving DecidableEq

/-- Classify an exact decimal value as the Python float it converts to. -/
def mkPyFloat (d : Dec10) : PyFloat :=
  if dec10Overflows d then .inf (d.mant < 0) else .finite d

/-- Python objects produced by `json.loads`. Object members are kept in
parse order; dictionary lookups take the last duplicate, as Python does. -/
inductive JVal where
  | jnull
  | jbool (b : Bool)
  | jint (n : Int)
  | jfloat (f : PyFloat)
  | jstr (s : List Char)
  | jarr (xs : List JVal)
  | jobj (kvs : List (List Char × JVal))

/-- JSON whitespace accepted between tokens by `json.loads`. -/
def isJsonWs (c : Char) : Bool :=
  c = ' ' ∨ c = '\t' ∨ c = '\n' ∨ c = '\r'

/-- Skip JSON whitespace. -/
def skipWs (l : List Char) : List Char := l.dropWhile isJsonWs

/-- Decimal digit test. -/
def isDigitCh (c : Char) : Bool := '0' ≤ c ∧ c ≤ '9'

/-- Decimal digit value. -/
def digitVal (c : Char) : Nat := c.toNat - '0'.toNat

/-- Hexadecimal digit value, if any. -/
def hexVal (c : Char) : Option Nat :=
  if '0' ≤ c ∧ c ≤ '9' then some (c.toNat - '0'.toNat)
  else if 'a' ≤ c ∧ c ≤ 'f' then some (c.toNat - 'a'.toNat + 10)
  else if 'A' ≤ c ∧ c ≤ 'F' then some (c.toNat - 'A'.toNat + 10)
  else none

/-- Natural number denoted by a list of decimal digits. -/
def digitsToNat (ds : List Char) : Nat :=
  ds.foldl (fun acc c => acc * 10 + digitVal c) 0

/-- Char to scalar; used to build characters parsed from `\uXXXX` escapes.
Lone surrogates (which Python strings can hold but Lean `Char` cannot) are
replaced by U+FFFD; no claim depends on them. -/
def charOfCode (n : Nat) : Char :=
  if n < 0xD800 ∨ (0xE000 ≤ n ∧ n < 0x110000) then Char.ofNat n else '�'

/-- Body of a JSON string after the opening quote, per the strict
`json.loads` rules: the standard eight escapes plus `\uXXXX` (surrogate
pairs combined), raw control characters below 0x20 rejected. Returns the
decoded content and the text after the closing quote. -/
def parseJStringAux : Nat → List Char → Option (List Char × List Char)
  | 0, _ => none
  | _ + 1, [] => none
  | fuel + 1, c :: rest =>
    if c = '"' then some ([], rest)
    else if c = '\\' then
      match rest with
      | [] => none
      | e :: rest2 =>
        let simpleEsc : Option Char :=
          if e = '"' then some '"'
          else if e = '\\' then some '\\'
          else if e = '/' then some '/'
          else if e = 'b' then some '\x08'
          else if e = 'f' then some '\x0C'
          else if e = 'n' then some '\n'
          else if e = 'r' then some '\r'
          else if e = 't' then some '\t'
          else none
        match simpleEsc with
        | some ch =>
          match parseJStringAux fuel rest2 with
          | some (s, r) => some (ch :: s, r)
          | none => none
        | none =>
          if e = 'u' then
            match rest2 with
            | h1 :: h2 :: h3 :: h4 :: rest3 =>
              match hexVal h1, hexVal h2, hexVal h3, hexVal h4 with
              | some a, some b, some c2, some d =>
                let u := ((a * 16 + b) * 16 + c2) * 16 + d
                if 0xD800 ≤ u ∧ u < 0xDC00 then
                  match rest3 with
                  | '\\' :: 'u' :: g1 :: g2 :: g3 :: g4 :: rest4 =>
                    match hexVal g1, hexVal g2, hexVal g3, hexVal g4 with
                    | some a2, some b2, some c3, some d2 =>
                      let u2 := ((a2 * 16 + b2) * 16 + c3) * 16 + d2
                      if 0xDC00 ≤ u2 ∧ u2 < 0xE000 then
                        let code := 0x10000 + (u - 0xD800) * 0x400 + (u2 - 0xDC00)
                        match parseJStringAux fuel rest4 with
                        | some (s, r) => some (charOfCode code :: s, r)
                        | none => none
                      else
                        match parseJStringAux fuel rest3 with
                        | some (s, r) => some (charOfCode u :: s, r)
                        | none => none
                    | _, _, _, _ =>
                      match parseJStringAux fuel rest3 with
                      | some (s, r) => some (charOfCode u :: s, r)
                      | none => none
                  | _ =>
                    match parseJStringAux fuel rest3 with
                    | some (s, r) => some (charOfCode u :: s, r)
                    | none => none
                else
                  match parseJStringAux fuel rest3 with
                  | some (s, r) => some (charOfCode u :: s, r)
                  | none => none
              | _, _, _, _ => none
            | _ => none
          else none
    else if c.toNat < 0x20 then none
    else
      match parseJStringAux fuel rest with
      | some (s, r) => some (c :: s, r)
      | none => none

/-- JSON string starting after the opening quote. -/
def parseJString (l : List Char) : Option (List Char × List Char) :=
  parseJStringAux (l.length + 1) l

/-- The JSON number token at the head of the input, per the scanner's
number regex: an optional minus, `0` or a nonzero-led digit run, an
optional fraction and an optional exponent (each only consumed when
well-formed, as the regex does). Returns the value and the rest. -/
def parseJNumber (l : List Char) : Option (JVal × List Char) :=
  let (neg, afterSign) :=
    match l with
    | '-' :: r => (true, r)
    | _ => (false, l)
  match afterSign with
  | c :: _ =>
    if isDigitCh c then
      let intDs :=
        if c = '0' then [c]
        else afterSign.takeWhile isDigitCh
      let rest1 := afterSign.drop intDs.length
      let (fracDs, rest2) :=
        match rest1 with
        | '.' :: r =>
          let ds := r.takeWhile isDigitCh
          if ds.isEmpty then (([] : List Char), rest1) else (ds, r.drop ds.length)
        | _ => ([], rest1)
      let (expVal, hasExp, rest3) :=
        match rest2 with
        | e :: r =>
          if e = 'e' ∨ e = 'E' then
            let (esign, r2) :=
              match r with
              | '+' :: rr => ((1 : Int), rr)
              | '-' :: rr => ((-1 : Int), rr)
              | _ => ((1 : Int), r)
            let ds := r2.takeWhile isDigitCh
            if ds.isEmpty then ((0 : Int), false, rest2)
            else (esign * (digitsToNat ds : Int), true, r2.drop ds.length)
          else ((0 : Int), false, rest2)
        | [] => ((0 : Int), false, rest2)
      if fracDs.isEmpty ∧ ¬hasExp then
        let n : Int := (digitsToNat intDs : Int)
        some (.jint (if neg then -n else n), rest1)
      else
        let m : Int := (digitsToNat (intDs ++ fracDs) : Int)
        let d : Dec10 := ⟨if neg then -m else m, expVal - (fracDs.length : Int)⟩
        some (.jfloat (mkPyFloat d), rest3)
    else none
  | [] => none

mutual

/-- JSON values, object members and array items, with fuel (the scanner of
`json.loads`, including its NaN, Infinity and negative Infinity
extensions; whitespace
inside containers is skipped exactly where the Python scanner skips it). -/
def parseJValue : Nat → List Char → Option (JVal × List Char)
  | 0, _ => none
  | fuel + 1, l =>
    match l with
    | '"' :: rest =>
      match parseJString rest with
      | some (s, r) => some (.jstr s, r)
      | none => none
    | '{' :: rest => parseJMembers fuel (skipWs rest) true
    | '[' :: rest => parseJItems fuel (skipWs rest) true
    | _ =>
      if ("null".data).isPrefixOf l then some (.jnull, l.drop 4)
      else if ("true".data).isPrefixOf l then some (.jbool true, l.drop 4)
      else if ("false".data).isPrefixOf l then some (.jbool false, l.drop 5)
      else
        match parseJNumber l with
        | some p => some p
        | none =>
          if ("NaN".data).isPrefixOf l then some (.jfloat .nan, l.drop 3)
          else if ("Infinity".data).isPrefixOf l then some (.jfloat (.inf false), l.drop 8)
          else if ("-Infinity".data).isPrefixOf l then some (.jfloat (.inf true), l.drop 9)
          else none

/-- Object members from just after `{` (whitespace already skipped); the
flag is true at the first member, where a closing brace is allowed. -/
def parseJMembers : Nat → List Char → Bool → Option (JVal × List Char)
  | 0, _, _ => none
  | fuel + 1, l, first =>
    match l with
    | '}' :: rest => if first then some (.jobj [], rest) else none
    | '"' :: rest =>
      match parseJString rest with
      | some (k, r1) =>
        match skipWs r1 with
        | ':' :: r2 =>
          match parseJValue fuel (skipWs r2) with
          | some (v, r3) =>
            match skipWs r3 with
            | ',' :: r4 =>
              match parseJMembers fuel (skipWs r4) false with
              | some (.jobj kvs, r5) => some (.jobj ((k, v) :: kvs), r5)
              | _ => none
            | '}' :: r4 => some (.jobj [(k, v)], r4)
            | _ => none
          | none => none
        | _ => none
      | none => none
    | _ => none

/-- Array items from just after `[` (whitespace already skipped); the flag
is true at the first item, where a closing bracket is allowed. -/
def parseJItems : Nat → List Char → Bool → Option (JVal × List Char)
  | 0, _, _ => none
  | fuel + 1, l, first =>
    match l with
    | ']' :: rest => if first then some (.jarr [], rest) else none
    | _ =>
      match parseJValue fuel l with
      | some (v, r1) =>
        match skipWs r1 with
        | ',' :: r2 =>
          match parseJItems fuel (skipWs r2) false with
          | some (.jarr xs, r3) => some (.jarr (v :: xs), r3)
          | _ => none
        | ']' :: r2 => some (.jarr [v], r2)
        | _ => none
      | none => none

end

/-- `json.loads` on a whole document: skip leading and trailing whitespace
around exactly one value; anything left over is a decode error (`none`). -/
def jsonParseDoc (l : List Char) : Option JVal :=
  let l1 := skipWs l
  match parseJValue (l1.length + 1) l1 with
  | some (v, rest) => if (skipWs rest).isEmpty then some v else none
  | none => none

/- ## Python str(), float() and int() as used by the coercion
`int(float(str(value)))` in CmdOutputMetadata.from_ps1_match. -/

/-- Decimal digit character. -/
def digitChar (n : Nat) : Char := Char.ofNat ('0'.toNat + n)

/-- Decimal rendering of a natural number. -/
def natReprAux : Nat → Nat → List Char → List Char
  | 0, _, acc => acc
  | fuel + 1, n, acc =>
    if n < 10 then digitChar n :: acc
    else natReprAux fuel (n / 10) (digitChar (n % 10) :: acc)

/-- Decimal rendering of a natural number. -/
def natRepr (n : Nat) : List Char := natReprAux (n + 1) n []

/-- Decimal rendering of an integer. -/
def intRepr (n : Int) : List Char :=
  if n < 0 then '-' :: natRepr n.natAbs else natRepr n.natAbs

/-- Decimal rendering of a finite Python float held as an exact decimal.
Python's `str` prints the shortest round-tripping literal and switches to
scientific notation for extreme magnitudes; this model always prints the
plain exact expansion (trailing fractional zeros kept). Both denote the
same value, and `float()` parses either back to the same float, which is
all the embedded code observes. -/
def floatReprFinite (d : Dec10) : List Char :=
  let sign := if d.mant < 0 then ['-'] else ([] : List Char)
  let a := d.mant.natAbs
  if 0 ≤ d.exp then
    sign ++ natRepr (a * 10 ^ d.exp.toNat) ++ '.' :: ['0']
  else
    let k := (-d.exp).toNat
    let ip := a / 10 ^ k
    let rem := a % 10 ^ k
    let frac := natRepr rem
    let fds := List.replicate (k - frac.length) '0' ++ frac
    sign ++ natRepr ip ++ '.' :: fds

/-- Rendering of a Python float. -/
def floatRepr : PyFloat → List Char
  | .finite q => floatReprFinite q
  | .inf b => if b then "-inf".data else "inf".data
  | .nan => "nan".data

/-- Comma-space join used by Python container reprs. -/
def joinCommaSpace (xs : List (List Char)) : List Char :=
  List.intercalate (", ".data) xs

mutual

/-- A size measure for json.loads values, used only as recursion fuel for
the container repr below. -/
def jvalSize : JVal → Nat
  | .jarr xs => 1 + jvalListSize xs
  | .jobj kvs => 1 + jvalObjSize kvs
  | _ => 1

/-- Size of a list of values. -/
def jvalListSize : List JVal → Nat
  | [] => 0
  | v :: vs => jvalSize v + jvalListSize vs

/-- Size of object members. -/
def jvalObjSize : List (List Char × JVal) → Nat
  | [] => 0
  | kv :: kvs => jvalSize kv.2 + jvalObjSize kvs

end

/-- Python `repr` of a json.loads value (fuel-driven; `jvalSize` always
suffices). String quoting is simplified to plain single quotes: the
embedded code only ever feeds container reprs to `float()`, where any
bracketed rendering fails identically. -/
def pyReprAux : Nat → JVal → List Char
  | 0, _ => []
  | fuel + 1, v =>
    match v with
    | .jnull => "None".data
    | .jbool true => "True".data
    | .jbool false => "False".data
    | .jint n => intRepr n
    | .jfloat f => floatRepr f
    | .jstr s => '\x27' :: s ++ ['\x27']
    | .jarr xs => '[' :: joinCommaSpace (xs.map (pyReprAux fuel)) ++ [']']
    | .jobj kvs =>
      '\x7b' :: joinCommaSpace
        (kvs.map (fun kv => '\x27' :: kv.1 ++ '\x27' :: ':' :: ' ' :: pyReprAux fuel kv.2)) ++ ['\x7d']

/-- Python `str` of a json.loads value: a string is itself, everything else
renders as its repr (scalar reprs written out directly). -/
def pyStr (v : JVal) : List Char :=
  match v with
  | .jnull => "None".data
  | .jbool true => "True".data
  | .jbool false => "False".data
  | .jint n => intRepr n
  | .jfloat f => floatRepr f
  | .jstr s => s
  | .jarr xs => pyReprAux (jvalSize (.jarr xs)) (.jarr xs)
  | .jobj kvs => pyReprAux (jvalSize (.jobj kvs)) (.jobj kvs)

/-- Characters stripped by Python `str.strip()` and by `float(str)`. -/
def pyIsSpace (c : Char) : Bool :=
  c = ' ' ∨ ('\x09' ≤ c ∧ c ≤ '\x0D') ∨ ('\x1C' ≤ c ∧ c ≤ '\x1F') ∨
  c = '\x85' ∨ c = '\xA0' ∨ c = ' ' ∨ (' ' ≤ c ∧ c ≤ ' ') ∨
  c = ' ' ∨ c = ' ' ∨ c = ' ' ∨ c = ' ' ∨ c = '　'

/-- Python `str.strip()`. -/
def pyStripChars (l : List Char) : List Char :=
  ((l.dropWhile pyIsSpace).reverse.dropWhile pyIsSpace).reverse

/-- A run of decimal digits in which single underscores may appear between
two digits (the `float()` literal rule); invariant: a digit was just
consumed. Returns the digits (underscores elided) and the rest. -/
def digitRunUAux : Nat → List Char → (List Char × List Char)
  | 0, l => ([], l)
  | fuel + 1, l =>
    match l with
    | c :: rest =>
      if isDigitCh c then
        let (ds, r) := digitRunUAux fuel rest
        (c :: ds, r)
      else if c = '_' then
        match rest with
        | d :: rest2 =>
          if isDigitCh d then
            let (ds, r) := digitRunUAux fuel rest2
            (d :: ds, r)
          else ([], l)
        | [] => ([], l)
      else ([], l)
    | [] => ([], [])

/-- A digit run that must start with a digit (possibly empty when the head
is not a digit). -/
def digitRunU (l : List Char) : (List Char × List Char) :=
  match l with
  | c :: rest =>
    if isDigitCh c then
      let (ds, r) := digitRunUAux (rest.length + 1) rest
      (c :: ds, r)
    else ([], l)
  | [] => ([], [])

/-- The decimal part of a Python float literal (sign already removed):
`digits [. digits] [e sign digits]`, at least one digit before the
exponent, the whole input consumed. Returns the exact decimal value. -/
def parseFloatDecimal (l : List Char) : Option Dec10 :=
  let (intDs, r1) := digitRunU l
  let (fracDs, r2) :=
    match r1 with
    | '.' :: r =>
      let (ds, rr) := digitRunU r
      (ds, rr)
    | _ => (([] : List Char), r1)
  if intDs.isEmpty ∧ fracDs.isEmpty then none
  else
    let m : Int := (digitsToNat (intDs ++ fracDs) : Int)
    let base : Int := -(fracDs.length : Int)
    match r2 with
    | [] => some ⟨m, base⟩
    | e :: r =>
      if e = 'e' ∨ e = 'E' then
        let (esign, r3) :=
          match r with
          | '+' :: rr => ((1 : Int), rr)
          | '-' :: rr => ((-1 : Int), rr)
          | _ => ((1 : Int), r)
        let (eds, r4) := digitRunU r3
        if eds.isEmpty ∨ ¬r4.isEmpty then none
        else some ⟨m, base + esign * (digitsToNat eds : Int)⟩
      else none

/-- Python `float()` applied to a string: strip whitespace, optional sign,
case-insensitive `inf`, `infinity` or `nan`, otherwise a decimal literal;
overflow of the conversion gives an infinity, not an error. `none` models
the `ValueError` raise. -/
def pyFloatOfString (s : List Char) : Option PyFloat :=
  let t := pyStripChars s
  let (neg, body) :=
    match t with
    | '+' :: r => (false, r)
    | '-' :: r => (true, r)
    | _ => (false, t)
  let low := body.map Char.toLower
  if low = "inf".data ∨ low = "infinity".data then some (.inf neg)
  else if low = "nan".data then some (.nan)
  else
    match parseFloatDecimal body with
    | some d => some (mkPyFloat ⟨if neg then -d.mant else d.mant, d.exp⟩)
    | none => none

/-- Python `int()` truncation of an exact decimal toward zero. -/
def dec10Trunc (d : Dec10) : Int :=
  if 0 ≤ d.exp then d.mant * 10 ^ d.exp.toNat
  else
    let k := (-d.exp).toNat
    let a := d.mant.natAbs / 10 ^ k
    if d.mant < 0 then -(a : Int) else (a : Int)

/- ## CmdOutputMetadata and the exit-code coercion (runtime.py 37–108) -/

/-- `CmdOutputMetadata` (runtime.py lines 37–50). Python's dataclass does
not validate field types, so the four optional fields hold whatever JSON
value the marker carried. -/
structure CmdOutputMetadata where
  exit_code : Int := -1
  username : Option JVal := none
  hostname : Option JVal := none
  working_dir : Option JVal := none
  py_interpreter_path : Option JVal := none

/-- Dictionary key of the exit code field. -/
def keyExitCode : List Char := "exit_code".data

/-- Dictionary key of the username field. -/
def keyUsername : List Char := "username".data

/-- Dictionary key of the hostname field. -/
def keyHostname : List Char := "hostname".data

/-- Dictionary key of the working directory field. -/
def keyWorkingDir : List Char := "working_dir".data

/-- Dictionary key of the interpreter path field. -/
def keyPyInterp : List Char := "py_interpreter_path".data

/-- The five dataclass field names accepted by `cls(**processed)`. -/
def metadataKeys : List (List Char) :=
  [keyExitCode, keyUsername, keyHostname, keyWorkingDir, keyPyInterp]

/-- Python dict lookup over members kept in parse order: the last
occurrence of a duplicated key wins. -/
def dictLookup (kvs : List (List Char × JVal)) (k : List Char) : Option JVal :=
  (kvs.reverse.find? (fun kv => kv.1 == k)).map Prod.snd

/-- `int(float(str(value)))` under `except (ValueError, TypeError)`
(runtime.py lines 104–107): a failed `float()` or an `int(nan)` is caught
and falls back to -1; `int(inf)` raises OverflowError, which the except
clause does not cover. -/
def coerceExitCode (v : JVal) : Except PyErr Int :=
  match pyFloatOfString (pyStr v) with
  | none => .ok (-1)
  | some .nan => .ok (-1)
  | some (.inf _) => .error .overflowError
  | some (.finite d) => .ok (dec10Trunc d)

/-- The object branch of `from_ps1_match` (runtime.py lines 99–108):
coerce the exit code when the key is present (dataclass default -1
otherwise), then `cls(**processed)`, which raises TypeError on any key
outside the five dataclass fields. -/
def fromJsonObject (kvs : List (List Char × JVal)) : Except PyErr CmdOutputMetadata := do
  let ec ← match dictLookup kvs keyExitCode with
           | none => Except.ok (-1)
           | some v => coerceExitCode v
  if (kvs.map Prod.fst).all (fun k => metadataKeys.contains k) then
    .ok { exit_code := ec
          username := dictLookup kvs keyUsername
          hostname := dictLookup kvs keyHostname
          working_dir := dictLookup kvs keyWorkingDir
          py_interpreter_path := dictLookup kvs keyPyInterp }
  else .error .typeError

/-- `CmdOutputMetadata.from_ps1_match` (runtime.py lines 88–108) applied to
the regex group of a marker match. `json.loads` failure raises; a JSON
value that is not an object raises at `metadata.copy()` (AttributeError)
or, for a list, at the subscript assignment or `cls(**processed)`
(TypeError either way). -/
def fromPS1Match (inner : List Char) : Except PyErr CmdOutputMetadata :=
  match jsonParseDoc inner with
  | none => .error .jsonDecodeError
  | some (.jobj kvs) => fromJsonObject kvs
  | some (.jarr _) => .error .typeError
  | some _ => .error .attributeError

/- ## The Marker Protocol scanner (runtime.py 24–29 and 77–86)

`CMD_OUTPUT_METADATA_PS1_REGEX` is the begin sentinel (stripped), a lazy
group, and the end sentinel (stripped), compiled with DOTALL and MULTILINE:
a match must start at the beginning of a line and extends to the first
subsequent end sentinel; `finditer` yields non-overlapping matches in
order, resuming after each match. -/

/-- The stripped begin sentinel `###PS1JSON###` (13 characters). -/
def psBeginS : List Char := "###PS1JSON###".data

/-- The stripped end sentinel `###PS1END###` (12 characters). -/
def psEndS : List Char := "###PS1END###".data

/-- A regex match of the PS1 metadata pattern: start offset, end offset,
and the text of the lazy group between the sentinels. -/
structure PSMatch where
  start : Nat
  stop : Nat
  inner : List Char
deriving DecidableEq

/-- The MULTILINE anchor plus the begin sentinel at offset `i`. -/
def beginAnchoredAt (l : List Char) (i : Nat) : Bool :=
  (i = 0 ∨ l.get? (i - 1) = some '\n') ∧ psBeginS.isPrefixOf (l.drop i)

/-- Offset of the first occurrence of the end sentinel at or after `j`
(the lazy group takes the earliest possible end). -/
def findEndFrom : Nat → List Char → Nat → Option Nat
  | 0, _, _ => none
  | fuel + 1, l, j =>
    if l.length < j + 12 then none
    else if psEndS.isPrefixOf (l.drop j) then some j
    else findEndFrom fuel l (j + 1)

/-- `finditer` scan: try each position in order; on a match, resume right
after it (fuel-driven; `l.length + 2` always suffices). -/
def scanPS1Aux (l : List Char) : Nat → Nat → List PSMatch
  | 0, _ => []
  | fuel + 1, pos =>
    if l.length < pos then []
    else if beginAnchoredAt l pos then
      match findEndFrom (l.length + 1) l (pos + 13) with
      | some j => ⟨pos, j + 12, listSlice l (pos + 13) j⟩ :: scanPS1Aux l fuel (j + 12)
      | none => scanPS1Aux l fuel (pos + 1)
    else scanPS1Aux l fuel (pos + 1)

/-- All matches of the PS1 metadata regex, in order. -/
def psFindIter (l : List Char) : List PSMatch :=
  scanPS1Aux l (l.length + 2) 0

/-- `CmdOutputMetadata.matches_ps1_metadata` (runtime.py lines 77–86):
keep exactly the regex matches whose stripped group is valid JSON. -/
def matchesPS1Metadata (l : List Char) : List PSMatch :=
  (psFindIter l).filter (fun m => (jsonParseDoc (pyStripChars m.inner)).isSome)

/-- `SetupRuntime._combine_outputs_between_matches` (runtime.py lines
239–252): one match keeps everything before it; no match keeps the whole
buffer; otherwise the segments from one past each match's end to the next
match's start are joined with a newline, plus a trailing newline. -/
def combineOutputsBetweenMatches (pane : List Char) (ms : List PSMatch) : List Char :=
  match ms with
  | [m] => pane.take m.start
  | [] => pane
  | _ :: _ :: _ =>
    let segs := (ms.zip ms.tail).map (fun ab => listSlice pane (ab.1.stop + 1) ab.2.start)
    if segs.isEmpty then [] else List.intercalate ['\n'] segs ++ ['\n']

/-- The tail of `SetupRuntime._read_raw_output` (runtime.py lines 229–237)
applied to an accumulated buffer: the last valid match (if any) supplies
the metadata via `from_ps1_match`, and the output is combined between
matches. -/
def decodeAccumulated (acc : List Char) : Except PyErr (List Char × Option CmdOutputMetadata) :=
  let ms := matchesPS1Metadata acc
  match ms.getLast? with
  | none => .ok (combineOutputsBetweenMatches acc ms, none)
  | some m =>
    match fromPS1Match m.inner with
    | .ok md => .ok (combineOutputsBetweenMatches acc ms, some md)
    | .error e => .error e

/-- The accumulation loop of `_read_raw_output` (runtime.py lines 220–228):
chunks arriving before the deadline are appended one at a time, stopping
early as soon as the accumulated buffer holds a valid match; exhausting the
list models the timeout. -/
def accumulateChunks (acc : List Char) : List (List Char) → List Char
  | [] => acc
  | c :: cs =>
    let acc2 := acc ++ c
    if (matchesPS1Metadata acc2).isEmpty then accumulateChunks acc2 cs else acc2

/-- `SetupRuntime._read_raw_output` over the list of chunks the queue
yields within the read's deadline. -/
def readRawOutput (chunks : List (List Char)) : Except PyErr (List Char × Option CmdOutputMetadata) :=
  decodeAccumulated (accumulateChunks [] chunks)

/-- `TIMEOUT_EXIT_CODE` (runtime.py line 31). -/
def TIMEOUT_EXIT_CODE : Int := 124

/-- The terminal marker appended on the timeout path
(runtime.py line 273). -/
def timeoutMarkerText : List Char := "\n**Exited due to timeout**\n".data

/-- `CommandResult` (runtime.py lines 111–121). -/
structure CommandResult where
  output : List Char
  metadata : Option CmdOutputMetadata

/-- `SetupRuntime.send_command` (runtime.py lines 254–282) over the chunk
lists its two reads consume: normalize the trailing newline, read until a
match or the caller's timeout, and on timeout send an interrupt, read
once more under the short fixed bound, concatenate both outputs plus the
terminal marker, and force the exit code to the timeout sentinel
(synthesizing default metadata when the second read finds no match).
Returns the transmitted text together with the result. -/
def sendCommand (command : List Char) (primaryChunks secondaryChunks : List (List Char)) :
    Except PyErr (List Char × CommandResult) := do
  let sent := if command.getLast? = some '\n' then command else command ++ ['\n']
  let (output, md) ← readRawOutput primaryChunks
  match md with
  | some m => .ok (sent, ⟨output, some m⟩)
  | none => do
    let (killOut, killMd) ← readRawOutput secondaryChunks
    let output2 := output ++ killOut ++ timeoutMarkerText
    match killMd with
    | some km => .ok (sent, ⟨output2, some { km with exit_code := TIMEOUT_EXIT_CODE }⟩)
    | none => .ok (sent, ⟨output2, some { exit_code := TIMEOUT_EXIT_CODE }⟩)

/- ## CommandResult.to_observation (runtime.py 123–151) -/

/-- Python string interpolation of an optional field value
(`None` prints as `None`). -/
def strOptJ : Option JVal → List Char
  | none => "None".data
  | some v => pyStr v

/-- `CommandResult.to_observation` (runtime.py lines 123–151): sanitize the
output (truncating only when `strip`), then format it alone when metadata
is absent, or with the prompt-like suffix and exit code when present. -/
def toObservation (r : CommandResult) (strip : Bool) : List Char :=
  let output := if strip then sanitizeDisplay r.output else sanitizeOutput r.output
  match r.metadata with
  | none => '\n' :: output ++ ['\n']
  | some md =>
    output ++ '\n' :: strOptJ md.username ++ '@' :: strOptJ md.hostname ++
      ':' :: strOptJ md.working_dir ++ " $\n\nexit code: ".data ++
      intRepr md.exit_code ++ ['\n']

/- ## Agent reply parsing (testall.py 221–250, rebuild.py 91–116)

The three organize agents parse replies through the `ActionParser` base
class, whose module (launch/agent/action_parser.py) is not under src/. -/

/-- First index at which `needle` occurs in `hay`, scanning left to right. -/
def findSubAux (needle : List Char) : Nat → List Char → Nat → Option Nat
  | 0, _, _ => none
  | fuel + 1, hay, i =>
    if needle.isPrefixOf hay then some i
    else
      match hay with
      | [] => none
      | _ :: t => findSubAux needle fuel t (i + 1)

/-- First index at which `needle` occurs in `hay`. -/
def findSub (hay needle : List Char) : Option Nat :=
  findSubAux needle (hay.length + 1) hay 0

/-- Modelled from the spec: `ActionParser.extract_tag_content`
(launch/agent/action_parser.py is not under src/). The spec's agent reply
protocol is "plain text containing exactly one recognized tag-delimited
block per reply", so extraction returns the text between the first
`<tag>` and the next `</tag>` when such a block is present, and the empty
string otherwise. -/
def extractTagContent (response tag : List Char) : List Char :=
  let openT := '<' :: tag ++ ['>']
  let closeT := '<' :: '/' :: tag ++ ['>']
  match findSub response openT with
  | none => []
  | some i =>
    let afterOpen := response.drop (i + openT.length)
    match findSub afterOpen closeT with
    | none => []
    | some j => afterOpen.take j

/-- Modelled from the spec: `ActionParser.clean_response`
(launch/agent/action_parser.py is not under src/). The spec describes no
transformation of the raw reply before tag extraction, so it is the
identity. -/
def cleanResponse (response : List Char) : List Char := response

/-- Tag name `command`. -/
def tagCommand : List Char := "command".data

/-- Tag name `search`. -/
def tagSearch : List Char := "search".data

/-- Tag name `submit`. -/
def tagSubmit : List Char := "submit".data

/-- Tag name `python`. -/
def tagPython : List Char := "python".data

/-- `SetupAction` (rebuild.py lines 64–81): the closed action vocabulary of
the rebuild-organizing agent. -/
inductive SetupAction where
  | command (args : List Char)
  | search (args : List Char)
  | submit (args : List Char)
deriving DecidableEq

/-- `SetupActionParser.parse` (rebuild.py lines 91–110, via
`parse_setup_action`): try the tags in the order command, search, submit;
the first tag with truthy (nonempty) extracted content wins; none parses
to no action. -/
def parseSetupAction (response : List Char) : Option SetupAction :=
  let response := cleanResponse response
  let command := extractTagContent response tagCommand
  if ¬command.isEmpty then some (.command command)
  else
    let search := extractTagContent response tagSearch
    if ¬search.isEmpty then some (.search search)
    else
      let submit := extractTagContent response tagSubmit
      if ¬submit.isEmpty then some (.submit submit)
      else none

/-- `VerifyAction` (testall.py lines 118–211): the closed action vocabulary
of the test-organizing agent. -/
inductive VerifyAction where
  | command (args : List Char)
  | search (args : List Char)
  | python (args : List Char)
  | submit (args : List Char)
deriving DecidableEq

/-- `VerifyActionParser.parse` (testall.py lines 221–244, via
`parse_verify_action`): try the tags in the order submit, python, command,
search; the first tag with truthy (nonempty) extracted content wins. -/
def parseVerifyAction (response : List Char) : Option VerifyAction :=
  let response := cleanResponse response
  let submit := extractTagContent response tagSubmit
  if ¬submit.isEmpty then some (.submit submit)
  else
    let script := extractTagContent response tagPython
    if ¬script.isEmpty then some (.python script)
    else
      let command := extractTagContent response tagCommand
      if ¬command.isEmpty then some (.command command)
      else
        let search := extractTagContent response tagSearch
        if ¬search.isEmpty then some (.search search)
        else none

/-- The docstring of `VerifyAction` (testall.py lines 119–206), inserted
verbatim into the parse-failure observation. -/
def verifyActionDoc : List Char :=
  "\nCommand: run a command in the shell, reply with following format, your command should not require sudo/admin privilage or interactive input:\n    <command>...</command>\n    e.g. <command>pytest -rA</command>\n    e.g. <command>tox -- -rA</command>\nSearch: search the web if you need some information, generate query and reply with following format:\n    <search>...</search>\n    e.g. <search>how to fix \x27No module named setuptools\x27</search>\nParse: parse the test output with python script, wrap your python script in  \n    <python>def parser(log:str)->dict[str, str]:\n\rreturn</python>\n    The \"log\" argument is the test case output, the system will pass the concatenated history message into the function you define and give you execution results, so you only need to submit the python script\n    The history log would contain much noise, so you\x27d better use regex to parse the log, you must only use built-in python libs\n    The first example parse script: <python>def parser(log: str) -> dict[str, str]:\n    import re\n    result: dict[str, str] = \x7b\x7d\n    for line in log.splitlines():\n        # match test lines like: tests/foo/bar.py::test_name PASSED ...\n        m = re.search(r\x27(\\S+::\\S+)\\s+(PASSED|FAILED|SKIPPED|XFAIL|XPASS)\x27, line)\n        if m:\n            test, status = m.groups()\n            status = status.upper()\n            if status == \"PASSED\":\n                result[test] = \"pass\"\n            elif status in (\"FAILED\", \"XFAIL\", \"XPASS\"):\n                result[test] = \"fail\"\n            elif status == \"SKIPPED\":\n                result[test] = \"skip\"\n    return result</python>\n    The second example parse script: <python>def parser(log: str) -> dict[str, str]:\n    import re\n    from typing import Dict\n    test_header_re = re.compile(r\"^\\s*-\x7b3,\x7d\\s*$|^\\s*Test set:\\s+(.+?)\\s*$\")\n    # Typical line: ------------------------------------------------------------------------------- Tests run: 11, Failures: 0, Errors: 1, Skipped: 0, Time elapsed: 2.025 s -- in org.asynchttpclient.ws.WebSocketWriteFutureTest\n    summary_re = re.compile(\n        r\"Tests run:\\s*(\\d+)\\s*,\\s*Failures:\\s*(\\d+)\\s*,\\s*Errors:\\s*(\\d+)\\s*,\\s*Skipped:\\s*(\\d+)\",\n        re.IGNORECASE,\n    )\n\n    results: Dict[str, str] = \x7b\x7d\n    current_suite: str | None = None\n\n    for line in log.splitlines():\n        # Detect the \x27Test set:\x27 header and capture suite name\n        m = test_header_re.match(line)\n        if m:\n            suite = m.group(1)\n            if suite:  # it\x27s a \x27Test set:\x27 line (not a dashed separator)\n                current_suite = suite.strip()\n            continue\n\n        if current_suite is None:\n            continue  # not inside a suite block yet\n\n        # Parse the first summary line encountered after the current suite header\n        s = summary_re.search(line)\n        if s:\n            tests_run = int(s.group(1))\n            failures = int(s.group(2))\n            errors = int(s.group(3))\n            skipped = int(s.group(4))\n\n            if failures > 0 or errors > 0:\n                status = \"fail\"\n            elif tests_run == 0 and skipped > 0:\n                status = \"skip\"\n            else:\n                status = \"pass\"\n\n            results[current_suite] = status\n            current_suite = None  # reset until next \x27Test set:\x27 header\n\n    return results</python>\n\nSubmit: TWO submissions required (parser is auto-stored):\n    \n    SUBMISSION 1 - Test command (STEP 1): Run tests and save output to file\n    <submit>npm run test:unit -- --json --outputFile=jest-results.json</submit>\n    <submit>pytest tests/ --json-report --json-report-file=report.json</submit>\n    <submit>go test ./... -v 2>&1 | tee test-output.log</submit>\n    \n    SUBMISSION 2 - Print command (STEP 2): Print the file contents\n    <submit>cat jest-results.json</submit>\n    <submit>cat report.json</submit>\n    <submit>cat test-output.log</submit>\n    \n    EXECUTION 3 - Execute parser (STEP 3): Write and execute parser to finish\n    After you validate your log parser, invoke submit action to finish the process\n    ".data

/-- The docstring of `SetupAction` (rebuild.py lines 64–76), inserted
verbatim into the parse-failure observation. -/
def setupActionDoc : List Char :=
  "\n        Command: run a command in the command line, reply with following format, your command should not require sudo/admin privilage or interactive input:\n            <command>...</command>\n            e.g. <command>python main.py</command>\n        Search: search the web if you need some information, generate query and reply with following format:\n            <search>...</search>\n            e.g. <search>how to fix \x27No module named setuptools\x27</search>\n        Submit: stop the exploration loop once you find the minimal commands to re-install modified packages and re-build the repo. Submit your minimal commands in one line, link multiple commands with \";\"\n            <submit>...</submit>\n            e.g. <submit>./gradlew resolveAllDependencies ; ./gradlew check</submit>\n            Of course you can submit with empty commands (an enter \n) if the repo really does not require any re-install and re-build: <submit>\n</submit>\n    ".data

/- ## Conversation messages and the bounded context window -/

/-- A conversation turn (System/Human/AI message with its content). -/
inductive Msg where
  | system (content : List Char)
  | human (content : List Char)
  | ai (content : List Char)
deriving DecidableEq

/-- `SetupObservation` (rebuild.py lines 84–88, testall.py lines 214–218):
observation content plus the stop flag. -/
structure SetupObservation where
  content : List Char
  is_stop : Bool
deriving DecidableEq

/-- Python `messages[-W:]` for the window slice; `W = 0` would keep the
whole list (the source always uses positive window constants). -/
def pyLastSlice (W : Nat) (l : List Msg) : List Msg :=
  if W = 0 then l else l.drop (l.length - W)

/-- The window construction shared by `organize_test_cmd` (testall.py lines
412–417, W = 40) and `generate_log_parser` (parselog.py lines 291–296,
W = 30): the whole history while it is shorter than `W` past the prefix,
otherwise the prefix followed by the last `W` messages. -/
def buildWindowContext (messages : List Msg) (prefixLen W : Nat) : List Msg :=
  if messages.length < W + prefixLen then messages
  else messages.take prefixLen ++ pyLastSlice W messages

/-- `SETUP_CONVERSATION_WINDOW` (rebuild.py line 198). -/
def SETUP_CONVERSATION_WINDOW : Nat := 40

/-- `VERIFY_CONVERSATION_WINDOW` (testall.py line 254). -/
def VERIFY_CONVERSATION_WINDOW : Nat := 40

/-- Simplified Python repr of a list of strings, used by the synthetic
"previous commands" reminder turn of the rebuild loop; its exact quoting
is immaterial to every claim. -/
def reprStrList (xs : List (List Char)) : List Char :=
  '[' :: joinCommaSpace (xs.map (fun s => '\x27' :: s ++ ['\x27'])) ++ [']']

/-- The synthetic commands-history turn of the rebuild loop (rebuild.py
lines 297–299). -/
def commandsHistoryText (commands : List (List Char)) : List Char :=
  "\nThe previous commands you have run:\x60\x60\x60\n".data ++ reprStrList commands ++
    "\x60\x60\x60\nFollowing are the last 40 messages:\n".data

/-- The context built by the rebuild loop (rebuild.py lines 300–311):
prefix, then the synthetic commands-history turn, then the tail or the
last `SETUP_CONVERSATION_WINDOW` messages. -/
def buildSetupContext (messages : List Msg) (prefixLen : Nat) (ch : Msg) : List Msg :=
  if messages.length < SETUP_CONVERSATION_WINDOW + prefixLen then
    messages.take prefixLen ++ ch :: messages.drop prefixLen
  else
    messages.take prefixLen ++ ch :: pyLastSlice SETUP_CONVERSATION_WINDOW messages

/- ## The rebuild-organizing loop (rebuild.py 119–369) -/

/-- The parse-failure observation of the rebuild loop (rebuild.py lines
132–137). -/
def setupFormatReminder : List Char :=
  "Please using following format after \x60Action: \x60 to make a valid action choice:\n".data ++
    setupActionDoc ++ ['\n']

/-- `observation_for_setup_action` (rebuild.py lines 119–146). The Session
and the web-search tool are external collaborators, passed as oracles; the
search oracle returns the already-serialized content that
`json.dumps(search_tool.invoke(args))` produces. -/
def observationForSetupAction
    (session : List Char → Except PyErr CommandResult)
    (searchO : List Char → List Char)
    (action : Option SetupAction) : Except PyErr SetupObservation :=
  match action with
  | none => .ok ⟨setupFormatReminder, false⟩
  | some (.command args) => do
    let result ← session args
    .ok ⟨toObservation result true, false⟩
  | some (.search args) => .ok ⟨searchO args, false⟩
  | some (.submit args) => .ok ⟨args, true⟩

/-- The judge prompt of `analyze_verification_with_llm` (rebuild.py lines
214–235). -/
def analysisPromptText (submitted output : List Char) : List Char :=
  "You are an expert developer analyzing the results of rebuild command execution.\n\nSUBMITTED COMMANDS:\n".data ++
    submitted ++
    "\n\nEXECUTION OUTPUT:\n".data ++
    output ++
    "\n\nYour task is to determine whether the rebuild commands executed SUCCESSFULLY or FAILED.\n\nConsider the following:\n- Error messages in the output\n- Warning messages vs critical errors\n- Whether the build/installation actually completed\n- Whether dependencies were properly installed\n- Whether the project was successfully built\n\nRespond with EXACTLY one of these two words:\n- SUCCESS: If the rebuild commands executed successfully and the project is properly built\n- FAILURE: If the rebuild commands failed or the project is not properly built\n\nYour response:".data

/-- `analyze_verification_with_llm` (rebuild.py lines 201–245) applied to
the judge's reply: a returned reply is stripped, uppercased and compared
with SUCCESS; if the invocation itself raised, the except branch reads the
never-assigned local `analysis` and raises NameError. -/
def analyzeVerificationWithLLM (judgeReply : Except PyErr (List Char)) : Except PyErr Bool :=
  match judgeReply with
  | .ok resp => .ok (((pyStripChars resp).map Char.toUpper) == "SUCCESS".data)
  | .error _ => .error .nameError

/-- The corrective turn appended on a rejected submission (rebuild.py lines
345–352); it embeds the submitted commands and the failure transcript. -/
def enforcedVerificationText (submitted output : List Char) : List Char :=
  "ENFORCED VERIFICATION FAILED:\nYour submitted commands: ".data ++ submitted ++
    "\nExecution output:\n".data ++ output ++
    "\nAn expert analysis of the output indicates the rebuild was not successful. Please analyze the error and provide different rebuild commands that will work. Be sure to verify on your own before submission.".data

/-- The prefix `Observation:\n` of every appended observation turn
(rebuild.py line 357, testall.py line 431). -/
def observationTurnText (content : List Char) : List Char :=
  "Observation:\n".data ++ content

/-- The iteration of `organize_setup` (rebuild.py lines 291–359). The
language model is an oracle indexed by invocation count and given the
built context; `fuel` is the remaining step budget, `step` counts
completed iterations (for the wall-clock check), `llmIdx` counts language
model invocations (the loop itself and the judge share the model).
Returns the final answer (if any), the messages and the commands. -/
def organizeSetupLoop
    (llm : Nat → List Msg → Except PyErr (List Char))
    (session : List Char → Except PyErr CommandResult)
    (searchO : List Char → List Char)
    (timeExpired : Nat → Bool)
    (prefixLen : Nat) :
    Nat → Nat → Nat → List Msg → List (List Char) →
    Except PyErr (Option (List Char) × List Msg × List (List Char))
  | 0, _, _, messages, commands => .ok (none, messages, commands)
  | fuel + 1, step, llmIdx, messages, commands =>
    if timeExpired step then .ok (none, messages, commands)
    else do
      let ch := Msg.human (commandsHistoryText commands)
      let ctxt := buildSetupContext messages prefixLen ch
      let resp ← llm llmIdx ctxt
      let messages2 := messages ++ [Msg.ai resp]
      let action := parseSetupAction resp
      let commands2 :=
        match action with
        | some (.command args) => commands ++ [args]
        | _ => commands
      let obs ← observationForSetupAction session searchO action
      if obs.is_stop then do
        let submitted := obs.content
        let vr ← session submitted
        let vOut := toObservation vr true
        let ok ← analyzeVerificationWithLLM (llm (llmIdx + 1) [Msg.human (analysisPromptText submitted vOut)])
        if ok then .ok (some submitted, messages2, commands2)
        else
          organizeSetupLoop llm session searchO timeExpired prefixLen fuel (step + 1) (llmIdx + 2)
            (messages2 ++ [Msg.human (enforcedVerificationText submitted vOut)]) commands2
      else
        organizeSetupLoop llm session searchO timeExpired prefixLen fuel (step + 1) (llmIdx + 1)
          (messages2 ++ [Msg.human (observationTurnText obs.content)]) commands2

/-- The dictionary returned by `organize_setup` (rebuild.py lines 362–369);
the session key is omitted (it is the unchanged session parameter). -/
structure SetupRunResult where
  messages : List Msg
  commands : List (List Char)
  setup_messages : List Msg
  setup_commands : List (List Char)
  success : Bool
deriving DecidableEq

/-- `organize_setup` (rebuild.py lines 248–369). The two prefix turns are
built from prompt templates (launch/agent/prompt.py) that are not under
src/, so they are taken as parameters; `setup_commands` is `[answer]` when
the answer is truthy, and `success` is whether an answer exists. -/
def organizeSetup
    (llm : Nat → List Msg → Except PyErr (List Char))
    (session : List Char → Except PyErr CommandResult)
    (searchO : List Char → List Char)
    (timeExpired : Nat → Bool)
    (prefixMsgs : List Msg)
    (maxSteps : Nat) : Except PyErr SetupRunResult := do
  let prefixLen := prefixMsgs.length
  let (answer, messages, commands) ←
    organizeSetupLoop llm session searchO timeExpired prefixLen maxSteps 0 0 prefixMsgs []
  .ok { messages := messages
        commands := commands
        setup_messages := messages.drop prefixLen
        setup_commands :=
          match answer with
          | some a => if a.isEmpty then [] else [a]
          | none => []
        success := answer.isSome }

/- ## The test-organizing loop (testall.py 257–464) -/

/-- Lower-case hexadecimal digit. -/
def hexDigitL (n : Nat) : Char :=
  if n < 10 then digitChar n else Char.ofNat ('a'.toNat + n - 10)

/-- A `\uXXXX` escape. -/
def u4Escape (n : Nat) : List Char :=
  ['\\', 'u', hexDigitL (n / 4096 % 16), hexDigitL (n / 256 % 16),
   hexDigitL (n / 16 % 16), hexDigitL (n % 16)]

/-- One character under `json.dumps` escaping (ensure_ascii default). -/
def jsonEscapeChar (c : Char) : List Char :=
  if c = '"' then ['\\', '"']
  else if c = '\\' then ['\\', '\\']
  else if c = '\n' then ['\\', 'n']
  else if c = '\r' then ['\\', 'r']
  else if c = '\t' then ['\\', 't']
  else if c = '\x08' then ['\\', 'b']
  else if c = '\x0C' then ['\\', 'f']
  else if c.toNat < 0x20 then u4Escape c.toNat
  else if c.toNat ≤ 0x7E then [c]
  else if c.toNat < 0x10000 then u4Escape c.toNat
  else
    let v := c.toNat - 0x10000
    u4Escape (0xD800 + v / 0x400) ++ u4Escape (0xDC00 + v % 0x400)

/-- A JSON string literal under `json.dumps`. -/
def jsonQuote (s : List Char) : List Char :=
  '"' :: s.foldr (fun c acc => jsonEscapeChar c ++ acc) ['"']

/-- `json.dumps(result, indent=True)` for the string-to-string dictionary
returned by the parser runner (testall.py line 305); `indent=True` counts
as one space. -/
def jsonDumpsStrDict (kvs : List (List Char × List Char)) : List Char :=
  match kvs with
  | [] => "\x7b\x7d".data
  | _ =>
    "\x7b\n ".data ++
      List.intercalate (",\n ".data)
        (kvs.map (fun kv => jsonQuote kv.1 ++ ": ".data ++ jsonQuote kv.2)) ++
      "\n\x7d".data

/-- Python truthiness of a json.loads value. -/
def pyTruthyJ : JVal → Bool
  | .jnull => false
  | .jbool b => b
  | .jint n => n ≠ 0
  | .jfloat (.finite d) => d.mant ≠ 0
  | .jfloat _ => true
  | .jstr s => ¬s.isEmpty
  | .jarr xs => ¬xs.isEmpty
  | .jobj kvs => ¬kvs.isEmpty

/-- The nonlocal variables of `organize_test_cmd` (testall.py lines
270–275) that the observation closure updates. -/
structure VerifyVars where
  test_output : List Char
  test_status : List Char
  test_command : List Char
  print_command : List Char
  submitted_steps : Nat
deriving DecidableEq

/-- The parse-failure observation of the verify loop (testall.py line
293). -/
def verifyFormatReminder : List Char :=
  "Please using following format after \x60Action: \x60 to make a valid action choice: \n".data ++
    verifyActionDoc

/-- The observation of the python action (testall.py lines 306–317). -/
def pythonResultText (truncated : List Char) : List Char :=
  "\nBelow is the execution result of your Python script:\n".data ++ truncated ++
    "\nPlease judge whether:\n(1) Your Python script extracts the statuses of all testcases and \n(2) Your script and test command have made best effort to reveal the status of each unit testcase under a test suite / set if there\x27s test suite / set. The testcase names in your output should be split to the finest granularity.\nIf not successful, please adjust your test command, run your new test command in container, and adjust your Python script to extract test status.\nIf successful, please submit.\n".data

/-- The observation of the first submission (testall.py lines 328–337). -/
def submitStep1Text (cmd : List Char) : List Char :=
  "Received STEP 1 test command:\n".data ++ cmd ++
    "\n\nNow please explore STEP 2 and submit: a command to print/cat the output file.\nFor example:\n<submit>cat jest-results.json</submit>\nor\n<submit>cat test-output.log</submit>\n".data

/-- The observation of the second submission (testall.py lines 342–349). -/
def submitStep2Text (cmd : List Char) : List Char :=
  "Received STEP 2 print command:\n".data ++ cmd ++
    "\n\nNow please write a Python parser to extract test cases and their status from the output.\nMake sure to run the parser to validate. The parser will be automatically stored when you execute it.\nUse: <python>def parser(log:str)->dict[str, str]: ... return results</python>\n".data

/-- The observation of a third submission accepted (testall.py line 355). -/
def submitDoneText : List Char := "Parser validated. Test analysis complete.".data

/-- The observation of a third submission without a validated parser
(testall.py line 359). -/
def submitNotValidatedText : List Char :=
  "Note: Parser have not yet been validated. Please verify your parser runs correctly before submission to finish the process.".data

/-- The truncation of the parser result (testall.py lines 306–308). -/
def truncateParserResult (s : List Char) : List Char :=
  if 40000 < s.length then
    s.take 40000 ++ "\n...result truncated due to length...\n".data
  else s

/-- `observation_for_verify_action` (testall.py lines 277–360). The Session,
the web-search tool and the sandboxed parser runner
(launch/scripts/parser.py, not under src/) are oracles; `parserScript` is
the loop-local parser read by the closure. A fourth submission falls off
the if/elif chain, so the closure returns Python `None` and the caller's
attribute access raises. -/
def observationForVerifyAction
    (session : List Char → Except PyErr CommandResult)
    (searchO : List Char → List Char)
    (runParserO : List Char → List Char → Except PyErr (List (List Char × List Char)))
    (parserScript : List Char)
    (vars : VerifyVars)
    (action : Option VerifyAction) : Except PyErr (VerifyVars × SetupObservation) :=
  match action with
  | none => .ok (vars, ⟨verifyFormatReminder, false⟩)
  | some (.command args) => do
    let result ← session args
    .ok ({ vars with test_output := result.output }, ⟨toObservation result true, false⟩)
  | some (.python args) => do
    let vars2 ←
      if ¬vars.print_command.isEmpty then do
        let r ← session vars.print_command
        Except.ok { vars with test_output := r.output }
      else Except.ok vars
    let result ← runParserO args vars2.test_output
    let statusText := jsonDumpsStrDict result
    let vars3 := { vars2 with test_status := statusText }
    .ok (vars3, ⟨pythonResultText (truncateParserResult statusText), false⟩)
  | some (.search args) => .ok (vars, ⟨searchO args, false⟩)
  | some (.submit args) =>
    let vars2 := { vars with submitted_steps := vars.submitted_steps + 1 }
    if vars2.submitted_steps = 1 then
      .ok ({ vars2 with test_command := args }, ⟨submitStep1Text args, false⟩)
    else if vars2.submitted_steps = 2 then
      .ok ({ vars2 with print_command := args }, ⟨submitStep2Text args, false⟩)
    else if vars2.submitted_steps = 3 then
      if ¬parserScript.isEmpty ∧ ¬vars2.test_status.isEmpty then
        .ok (vars2, ⟨submitDoneText, true⟩)
      else
        .ok (vars2, ⟨submitNotValidatedText, false⟩)
    else .error .attributeError

/-- The iteration of `organize_test_cmd` (testall.py lines 406–433): check
the wall clock, build the windowed context, invoke the model, parse,
observe, stop on a stopping observation, otherwise record commands and the
parser script and append the observation turn. -/
def organizeTestCmdLoop
    (llm : Nat → List Msg → Except PyErr (List Char))
    (session : List Char → Except PyErr CommandResult)
    (searchO : List Char → List Char)
    (runParserO : List Char → List Char → Except PyErr (List (List Char × List Char)))
    (timeExpired : Nat → Bool)
    (prefixLen : Nat) :
    Nat → Nat → List Msg → List (List Char) → List Char → VerifyVars →
    Except PyErr (Option (List Char) × List Msg × List (List Char) × List Char × VerifyVars)
  | 0, _, messages, commands, parserScript, vars =>
    .ok (none, messages, commands, parserScript, vars)
  | fuel + 1, step, messages, commands, parserScript, vars =>
    if timeExpired step then .ok (none, messages, commands, parserScript, vars)
    else do
      let ctxt := buildWindowContext messages prefixLen VERIFY_CONVERSATION_WINDOW
      let resp ← llm step ctxt
      let messages2 := messages ++ [Msg.ai resp]
      let action := parseVerifyAction resp
      let (vars2, obs) ← observationForVerifyAction session searchO runParserO parserScript vars action
      if obs.is_stop then .ok (some obs.content, messages2, commands, parserScript, vars2)
      else
        let commands2 :=
          match action with
          | some (.command a) => commands ++ [a]
          | _ => commands
        let parserScript2 :=
          match action with
          | some (.python a) => a
          | _ => parserScript
        organizeTestCmdLoop llm session searchO runParserO timeExpired prefixLen
          fuel (step + 1) (messages2 ++ [Msg.human (observationTurnText obs.content)])
          commands2 parserScript2 vars2

/-- The dictionary returned by `organize_test_cmd` (testall.py lines
455–464). -/
structure VerifyRunResult where
  messages : List Msg
  verify_messages : List Msg
  test_commands : List (List Char)
  print_commands : List (List Char)
  commands : List (List Char)
  parser : List Char
  test_status : Option JVal
  success : Bool

/-- `organize_test_cmd` (testall.py lines 257–464). The two prefix turns
are built from prompt templates (launch/agent/prompt.py) that are not
under src/, so they are taken as parameters. After the loop the collected
status text goes through `json.loads` under a bare except (`none` on
failure), and success is the truthiness of
`(test_command or answer) and parser and test_status`. -/
def organizeTestCmd
    (llm : Nat → List Msg → Except PyErr (List Char))
    (session : List Char → Except PyErr CommandResult)
    (searchO : List Char → List Char)
    (runParserO : List Char → List Char → Except PyErr (List (List Char × List Char)))
    (timeExpired : Nat → Bool)
    (prefixMsgs : List Msg)
    (maxSteps : Nat) : Except PyErr VerifyRunResult := do
  let prefixLen := prefixMsgs.length
  let (answer, messages, commands, parserScript, vars) ←
    organizeTestCmdLoop llm session searchO runParserO timeExpired prefixLen
      maxSteps 0 prefixMsgs [] [] ⟨[], [], [], [], 0⟩
  let testStatus := jsonParseDoc vars.test_status
  .ok { messages := messages
        verify_messages := messages.drop prefixLen
        test_commands := [vars.test_command]
        print_commands := [vars.print_command]
        commands := commands
        parser := parserScript
        test_status := testStatus
        success :=
          (!vars.test_command.isEmpty || !(answer.getD []).isEmpty) &&
          !parserScript.isEmpty &&
          (match testStatus with
           | some v => pyTruthyJ v
           | none => false) }

/- ## Session teardown (runtime.py 323–348) -/

/-- The container operations issued by teardown. -/
inductive ContainerOp where
  | stop
  | remove
deriving DecidableEq

/-- How far the container operations of one cleanup attempt get. -/
inductive CleanupOutcome where
  | ok
  | stopRaises
  | removeRaises
deriving DecidableEq

/-- The lifecycle state a `SetupRuntime` keeps for teardown: the `stopped`
flag (runtime.py line 191 initializes it to false). -/
structure RuntimeLifecycle where
  stopped : Bool
deriving DecidableEq

/-- `SetupRuntime.cleanup` (runtime.py lines 323–331): return immediately
when already stopped; otherwise stop and remove the container, setting the
flag only when both succeed (an exception is printed and swallowed,
leaving the flag unset). Returns the new state and the operations
attempted on the container. -/
def cleanup (outcome : CleanupOutcome) (s : RuntimeLifecycle) :
    RuntimeLifecycle × List ContainerOp :=
  if s.stopped then (s, [])
  else
    match outcome with
    | .ok => (⟨true⟩, [.stop, .remove])
    | .stopRaises => (s, [.stop])
    | .removeRaises => (s, [.stop, .remove])

/-- `SetupRuntime.__del__` (runtime.py lines 347–348): the destructor-time
backstop just calls cleanup. -/
def runtimeDel (outcome : CleanupOutcome) (s : RuntimeLifecycle) :
    RuntimeLifecycle × List ContainerOp :=
  cleanup outcome s

/- ## Specification-side formulas for refinement comparisons -/

/-- The output attribution exactly as the specification words it: every
byte strictly between the previous successful match's end and the current
(last) match's start, or from the buffer start when there is no previous
match. -/
def claimedOutputBetween (pane : List Char) (ms : List PSMatch) : List Char :=
  match ms.getLast? with
  | none => pane
  | some cur =>
    match ms.dropLast.getLast? with
    | none => pane.take cur.start
    | some prev => listSlice pane prev.stop cur.start

/-- The inter-match segments as the amended claim words them: for each
consecutive pair of matches, the bytes from one character past the earlier
match's end to the later match's start. -/
def amendedSegments (pane : List Char) : List PSMatch → List (List Char)
  | a :: b :: rest => listSlice pane (a.stop + 1) b.start :: amendedSegments pane (b :: rest)
  | _ => []

/-- The output attribution as the amended claim words it: one match keeps
every byte before its start; two or more matches keep the newline-join of
the inter-match segments plus a trailing newline. -/
def amendedOutput (pane : List Char) (ms : List PSMatch) : List Char :=
  match ms with
  | [] => pane
  | [m] => pane.take m.start
  | _ => List.intercalate ['\n'] (amendedSegments pane ms) ++ ['\n']

/-- How many recognized tags of the rebuild vocabulary are present (with
nonempty content) in a reply. -/
def setupTagHits (r : List Char) : Nat :=
  (([tagCommand, tagSearch, tagSubmit]).filter
    (fun t => ¬(extractTagContent r t).isEmpty)).length

/- ## Concrete inputs used by counterexamples and witnesses -/

/-- A buffer holding two valid marker matches with the bytes
newline-A-B-newline between them. -/
def cePane : List Char :=
  "###PS1JSON###\n\x7b\x7d\n###PS1END###\nAB\n###PS1JSON###\n\x7b\x7d\n###PS1END###".data

/-- A buffer holding one valid marker match after some command output. -/
def onePane : List Char :=
  "hello out\n###PS1JSON###\n\x7b\"exit_code\": 0\x7d\n###PS1END###\nxx".data

/-- A marker group whose JSON is the non-standard constant Infinity. -/
def ceInfinityGroup : List Char := "\x7b\"exit_code\": Infinity\x7d".data

/-- A secondary-read chunk whose marker holds valid JSON that is not an
object. -/
def ceBadMarkerChunk : List Char := "\n###PS1JSON###\n0\n###PS1END###\n".data

/-- A reply holding two recognized rebuild tags. -/
def ceTwoTags : List Char := "<command>ls</command> <submit>done</submit>".data

/-- An input on which escape-sequence removal concatenates the leftover
ESC with the leftover bracket-m into a fresh escape sequence. -/
def ceAnsi : List Char := "\x1B\x1B[m[m".data

/-- A concrete call-indexed reply oracle: submit, judged FAILURE, submit
again, judged SUCCESS. -/
def c5Oracle : Nat → List Char := fun k =>
  if k = 0 then "<submit>make</submit>".data
  else if k = 1 then "FAILURE".data
  else if k = 2 then "<submit>make -j</submit>".data
  else "SUCCESS".data

/- ## Helper lemmas -/

theorem length_strippedMarker : strippedMarker.length = 31 := rfl

theorem pyTakeLast_length_of_le {n : Nat} {l : List Char} (h : n ≤ l.length) :
    (pyTakeLast n l).length = n := by
  simp [pyTakeLast]
  omega

theorem stripLong_length_of_long {s : List Char} (h : 1024 * 8 < s.length) :
    (stripLong s).length = 8223 := by
  have h4 : 1024 * 4 ≤ s.length := by omega
  simp [stripLong, if_pos h, List.length_append, List.length_take,
    length_strippedMarker, pyTakeLast_length_of_le h4]
  omega

theorem stripLong_eq_of_long {s : List Char} (h : 1024 * 8 < s.length) :
    stripLong s = s.take (1024 * 4) ++ strippedMarker ++ pyTakeLast (1024 * 4) s := by
  simp [stripLong, if_pos h]

theorem stripLong_eq_of_short {s : List Char} (h : ¬1024 * 8 < s.length) :
    stripLong s = s := by
  unfold stripLong
  rw [if_neg h]

theorem stripLong_idem (s : List Char) : stripLong (stripLong s) = stripLong s := by
  by_cases h : 1024 * 8 < s.length
  · have hz := stripLong_eq_of_long h
    have hlen := stripLong_length_of_long h
    have hlong2 : 1024 * 8 < (stripLong s).length := by omega
    have htake : (stripLong s).take (1024 * 4) = s.take (1024 * 4) := by
      rw [hz, List.append_assoc]
      have hA : (s.take (1024 * 4)).length = 1024 * 4 := by
        simp [List.length_take]
        omega
      rw [List.take_append_eq_append_take, hA]
      simp
    have hdrop : pyTakeLast (1024 * 4) (stripLong s) = pyTakeLast (1024 * 4) s := by
      have hA : (s.take (1024 * 4)).length = 1024 * 4 := by
        simp [List.length_take]
        omega
      have hM : strippedMarker.length = 31 := rfl
      have hAM : (s.take (1024 * 4) ++ strippedMarker).length = 4127 := by
        rw [List.length_append, hA, hM]
      show (stripLong s).drop ((stripLong s).length - 1024 * 4) = pyTakeLast (1024 * 4) s
      rw [hlen, hz]
      have h4127 : 8223 - 1024 * 4 = (s.take (1024 * 4) ++ strippedMarker).length := by
        rw [hAM]
      rw [h4127, List.drop_left]
    rw [stripLong_eq_of_long hlong2, htake, hdrop, ← hz]
  · simp [stripLong_eq_of_short h]

theorem cr_not_mem_removeCR (l : List Char) : '\r' ∉ removeCR l := by
  simp [removeCR, List.mem_filter]

theorem removeCR_eq_self {l : List Char} (h : '\r' ∉ l) : removeCR l = l := by
  apply List.filter_eq_self.mpr
  intro a ha
  have : a ≠ '\r' := fun e => h (e ▸ ha)
  simpa using this

theorem cr_not_mem_stripLong {s : List Char} (h : '\r' ∉ s) : '\r' ∉ stripLong s := by
  by_cases hl : 1024 * 8 < s.length
  · rw [stripLong_eq_of_long hl]
    intro hmem
    rcases List.mem_append.mp hmem with hmem | hmem
    · rcases List.mem_append.mp hmem with hmem | hmem
      · exact h (List.mem_of_mem_take hmem)
      · revert hmem
        decide
    · exact h (List.mem_of_mem_drop hmem)
  · rwa [stripLong_eq_of_short hl]

/-- C4: the display sanitization of `to_observation` (ANSI escape
stripping, carriage-return removal and head/tail truncation) applied twice
equals a single application on every input whose sanitized form contains
no further ANSI escape match — the amended idempotence claim. -/
theorem sanitizeDisplay_idem_of_stable (s : List Char)
    (h : ansiSub (sanitizeDisplay s) = sanitizeDisplay s) :
    sanitizeDisplay (sanitizeDisplay s) = sanitizeDisplay s := by
  have hcr : '\r' ∉ sanitizeDisplay s :=
    cr_not_mem_stripLong (cr_not_mem_removeCR (ansiSub s))
  show stripLong (removeCR (ansiSub (sanitizeDisplay s))) = sanitizeDisplay s
  rw [h, removeCR_eq_self hcr]
  exact stripLong_idem (sanitizeOutput s)

/-- C4 counterexample: sanitizing `ESC ESC [ m [ m` once leaves `ESC [ m`
(removing the inner escape concatenates a new one), and sanitizing twice
removes it, so the two results differ byte-for-byte. -/
theorem sanitizeDisplay_not_idempotent :
    sanitizeDisplay (sanitizeDisplay ceAnsi) ≠ sanitizeDisplay ceAnsi := by
  decide

/-- C4 witness: a concrete stable input on which the amended idempotence
theorem applies. -/
theorem sanitizeDisplay_idem_witness :
    ansiSub (sanitizeDisplay ("hello".data)) = sanitizeDisplay ("hello".data) ∧
    sanitizeDisplay (sanitizeDisplay ("hello".data)) = sanitizeDisplay ("hello".data) :=
  ⟨by decide, sanitizeDisplay_idem_of_stable ("hello".data) (by decide)⟩

/-- C9: session teardown is idempotent — a first successful cleanup stops
and removes the container and sets the flag, and every further cleanup (or
destructor-time cleanup) on that state performs no container operation and
leaves the state unchanged. -/
theorem cleanup_idempotent (s : RuntimeLifecycle) (h : s.stopped = false) :
    (cleanup .ok s).1.stopped = true ∧
    (cleanup .ok s).2 = [.stop, .remove] ∧
    (∀ o, cleanup o (cleanup .ok s).1 = ((cleanup .ok s).1, [])) ∧
    (∀ o, runtimeDel o (cleanup .ok s).1 = ((cleanup .ok s).1, [])) := by
  obtain ⟨st⟩ := s
  simp only at h
  subst h
  refine ⟨rfl, rfl, ?_, ?_⟩ <;> intro o <;> simp [cleanup, runtimeDel]

/-- C9 witness: the idempotence theorem at the freshly-initialized
lifecycle state. -/
theorem cleanup_idempotent_witness :
    (cleanup .ok ⟨false⟩).1.stopped = true ∧
    (cleanup .ok ⟨false⟩).2 = [.stop, .remove] ∧
    (∀ o, cleanup o (cleanup .ok ⟨false⟩).1 = ((cleanup .ok ⟨false⟩).1, [])) ∧
    (∀ o, runtimeDel o (cleanup .ok ⟨false⟩).1 = ((cleanup .ok ⟨false⟩).1, [])) :=
  cleanup_idempotent ⟨false⟩ rfl

theorem ansiMatchLen_cons_ne {c : Char} {rest : List Char} (h : c ≠ '\x1B') :
    ansiMatchLen (c :: rest) = none := by
  unfold ansiMatchLen
  split <;> simp_all

theorem ansiSubAux_eq_self {l : List Char} (h : ∀ c ∈ l, c ≠ '\x1B') :
    ∀ fuel, ansiSubAux fuel l = l := by
  induction l with
  | nil => intro fuel; cases fuel <;> rfl
  | cons c rest ih =>
    intro fuel
    cases fuel with
    | zero => rfl
    | succ fuel =>
      have hc : c ≠ '\x1B' := h c (List.mem_cons_self c rest)
      show ansiSubAux (fuel + 1) (c :: rest) = c :: rest
      unfold ansiSubAux
      rw [ansiMatchLen_cons_ne hc]
      exact congrArg (c :: ·) (ih (fun x hx => h x (List.mem_cons_of_mem c hx)) fuel)

theorem ansiSub_eq_self {l : List Char} (h : ∀ c ∈ l, c ≠ '\x1B') :
    ansiSub l = l :=
  ansiSubAux_eq_self h l.length

theorem sanitizeOutput_replicate_a (n : Nat) :
    sanitizeOutput (List.replicate n 'a') = List.replicate n 'a' := by
  unfold sanitizeOutput
  rw [ansiSub_eq_self, removeCR_eq_self]
  · intro hmem
    have := List.eq_of_mem_replicate hmem
    simp at this
  · intro c hc
    have := List.eq_of_mem_replicate hc
    subst this
    decide

set_option maxRecDepth 10000 in
/-- C10: with the default `strip`, a sanitized output of at most 8192
characters appears unmodified inside the observation; a longer one is
displayed as exactly its first 4096 characters, the fixed marker and its
last 4096 characters, so the displayed output portion is exactly 8192 plus
the marker's length. -/
theorem toObservation_display (r : CommandResult) :
    ((sanitizeOutput r.output).length ≤ 1024 * 8 →
      sanitizeDisplay r.output = sanitizeOutput r.output ∧
      ∃ a b, toObservation r true = a ++ sanitizeOutput r.output ++ b) ∧
    (1024 * 8 < (sanitizeOutput r.output).length →
      sanitizeDisplay r.output =
        (sanitizeOutput r.output).take (1024 * 4) ++ strippedMarker ++
          pyTakeLast (1024 * 4) (sanitizeOutput r.output) ∧
      (sanitizeDisplay r.output).length = 1024 * 8 + strippedMarker.length ∧
      ∃ a b, toObservation r true = a ++ sanitizeDisplay r.output ++ b) := by
  obtain ⟨out, md⟩ := r
  constructor
  · intro h
    have hs : sanitizeDisplay out = sanitizeOutput out :=
      stripLong_eq_of_short (by simp only at h; omega)
    refine ⟨hs, ?_⟩
    cases md with
    | none =>
      refine ⟨['\n'], ['\n'], ?_⟩
      rw [show toObservation ⟨out, none⟩ true = '\n' :: sanitizeDisplay out ++ ['\n'] from rfl, hs]
      rfl
    | some m =>
      refine ⟨[], '\n' :: strOptJ m.username ++ '@' :: strOptJ m.hostname ++
        ':' :: strOptJ m.working_dir ++ " $\n\nexit code: ".data ++
        intRepr m.exit_code ++ ['\n'], ?_⟩
      rw [show toObservation ⟨out, some m⟩ true = sanitizeDisplay out ++
        '\n' :: strOptJ m.username ++ '@' :: strOptJ m.hostname ++
        ':' :: strOptJ m.working_dir ++ " $\n\nexit code: ".data ++
        intRepr m.exit_code ++ ['\n'] from rfl, hs]
      simp only [List.append_assoc, List.nil_append]
  · intro h
    simp only at h
    have hs : sanitizeDisplay out =
        (sanitizeOutput out).take (1024 * 4) ++ strippedMarker ++
          pyTakeLast (1024 * 4) (sanitizeOutput out) :=
      stripLong_eq_of_long h
    refine ⟨hs, stripLong_length_of_long h, ?_⟩
    cases md with
    | none =>
      refine ⟨['\n'], ['\n'], ?_⟩
      rw [show toObservation ⟨out, none⟩ true = '\n' :: sanitizeDisplay out ++ ['\n'] from rfl]
      rfl
    | some m =>
      refine ⟨[], '\n' :: strOptJ m.username ++ '@' :: strOptJ m.hostname ++
        ':' :: strOptJ m.working_dir ++ " $\n\nexit code: ".data ++
        intRepr m.exit_code ++ ['\n'], ?_⟩
      rw [show toObservation ⟨out, some m⟩ true = sanitizeDisplay out ++
        '\n' :: strOptJ m.username ++ '@' :: strOptJ m.hostname ++
        ':' :: strOptJ m.working_dir ++ " $\n\nexit code: ".data ++
        intRepr m.exit_code ++ ['\n'] from rfl]
      simp only [List.append_assoc, List.nil_append]

set_option maxRecDepth 10000 in
/-- C10 witness: the display theorem at a short output and at a 9000
character output. -/
theorem toObservation_display_witness :
    (sanitizeDisplay ("ok".data) = sanitizeOutput ("ok".data) ∧
      ∃ a b, toObservation ⟨"ok".data, none⟩ true = a ++ sanitizeOutput ("ok".data) ++ b) ∧
    (sanitizeDisplay (CommandResult.mk (List.replicate 9000 'a') none).output).length =
      1024 * 8 + strippedMarker.length := by
  constructor
  · exact (toObservation_display ⟨"ok".data, none⟩).1 (by decide)
  · have h9 : 1024 * 8 <
        (sanitizeOutput (CommandResult.mk (List.replicate 9000 'a') none).output).length := by
      rw [show (CommandResult.mk (List.replicate 9000 'a') none).output =
            List.replicate 9000 'a' from rfl,
        sanitizeOutput_replicate_a, List.length_replicate]
      omega
    exact ((toObservation_display ⟨List.replicate 9000 'a', none⟩).2 h9).2.1

/-- C6: the context sent to the agent is the immutable prefix followed by
the last `min(W, tail length)` tail turns; in particular, once the tail
exceeds the window (including the boundary case of length `W + 1`) it is
the prefix plus exactly the last `W` tail turns. -/
theorem buildWindowContext_window (P T : List Msg) (W : Nat) (hW : 0 < W) :
    buildWindowContext (P ++ T) P.length W = P ++ T.drop (T.length - min W T.length) ∧
    (W < T.length → buildWindowContext (P ++ T) P.length W = P ++ T.drop (T.length - W)) ∧
    (T.length = W + 1 → buildWindowContext (P ++ T) P.length W = P ++ T.drop 1) := by
  have hmain : buildWindowContext (P ++ T) P.length W =
      P ++ T.drop (T.length - min W T.length) := by
    unfold buildWindowContext
    by_cases h : (P ++ T).length < W + P.length
    · rw [if_pos h]
      have hT : T.length < W := by
        rw [List.length_append] at h
        omega
      rw [min_eq_right (Nat.le_of_lt hT)]
      simp
    · rw [if_neg h]
      have hWT : W ≤ T.length := by
        rw [List.length_append] at h
        omega
      have hmin : min W T.length = W := min_eq_left hWT
      rw [hmin]
      unfold pyLastSlice
      rw [if_neg (by omega)]
      have harith : (P ++ T).length - W = P.length + (T.length - W) := by
        rw [List.length_append]
        omega
      rw [harith, List.take_left, List.drop_append]
  refine ⟨hmain, ?_, ?_⟩
  · intro h2
    rw [hmain, min_eq_left (Nat.le_of_lt h2)]
  · intro h3
    have h2 : W < T.length := by omega
    rw [hmain, min_eq_left (Nat.le_of_lt h2), h3]
    simp

/-- C6 witness: the window theorem at a prefix of two turns, window 2 and
a tail of three turns (the boundary case `tail length = W + 1`). -/
theorem buildWindowContext_window_witness :
    buildWindowContext
        ([Msg.system "s".data, Msg.human "h".data] ++
          [Msg.ai "1".data, Msg.human "2".data, Msg.ai "3".data])
        ([Msg.system "s".data, Msg.human "h".data] : List Msg).length 2 =
      [Msg.system "s".data, Msg.human "h".data] ++
        ([Msg.ai "1".data, Msg.human "2".data, Msg.ai "3".data] : List Msg).drop 1 :=
  (buildWindowContext_window [Msg.system "s".data, Msg.human "h".data]
    [Msg.ai "1".data, Msg.human "2".data, Msg.ai "3".data] 2 (by decide)).2.2 (by decide)

set_option maxRecDepth 10000 in
/-- C8 counterexample: on the marker group `{"exit_code": Infinity}` —
valid for `json.loads` — the coercion `int(float(str(...)))` raises an
OverflowError that the `except (ValueError, TypeError)` clause does not
catch, so metadata construction raises rather than falling back to -1. -/
theorem fromPS1Match_infinity_raises :
    fromPS1Match ceInfinityGroup = .error .overflowError := rfl

/-- C8: for a parsed marker metadata object, the exit code of the
constructed metadata is -1 when the field is absent; when present, the
coercion yields an integer or falls back to -1 for every value except
those whose string form converts to an infinite float, where it raises
an uncaught OverflowError — the amended claim. -/
theorem exit_code_coercion (v : JVal) (kvs : List (List Char × JVal))
    (hk : ((kvs.map Prod.fst).all (fun k => metadataKeys.contains k)) = true)
    (habs : dictLookup kvs keyExitCode = none) :
    (∃ md, fromJsonObject kvs = .ok md ∧ md.exit_code = -1) ∧
    (match pyFloatOfString (pyStr v) with
     | some (.inf _) => coerceExitCode v = .error .overflowError
     | _ => ∃ n : Int, coerceExitCode v = .ok n) := by
  constructor
  · refine ⟨{ exit_code := -1
              username := dictLookup kvs keyUsername
              hostname := dictLookup kvs keyHostname
              working_dir := dictLookup kvs keyWorkingDir
              py_interpreter_path := dictLookup kvs keyPyInterp }, ?_, rfl⟩
    unfold fromJsonObject
    rw [habs, hk]
    rfl
  · cases h : pyFloatOfString (pyStr v) with
    | none => exact ⟨-1, by simp [coerceExitCode, h]⟩
    | some f =>
      cases f with
      | finite d => exact ⟨dec10Trunc d, by simp [coerceExitCode, h]⟩
      | inf b => simp [coerceExitCode, h]
      | nan => exact ⟨-1, by simp [coerceExitCode, h]⟩

/-- C8 witness: the coercion theorem at an exit-code-free object and at a
string value that coerces to an integer. -/
theorem exit_code_coercion_witness :
    (∃ md, fromJsonObject [(keyUsername, JVal.jnull)] = .ok md ∧ md.exit_code = -1) ∧
    (match pyFloatOfString (pyStr (.jstr ("3.5".data))) with
     | some (.inf _) => coerceExitCode (.jstr ("3.5".data)) = .error .overflowError
     | _ => ∃ n : Int, coerceExitCode (.jstr ("3.5".data)) = .ok n) :=
  exit_code_coercion (.jstr ("3.5".data)) [(keyUsername, JVal.jnull)] rfl rfl

theorem zipSegments_eq_amended (pane : List Char) :
    ∀ rest a b, (((a :: b :: rest).zip (b :: rest)).map
        (fun ab => listSlice pane (ab.1.stop + 1) ab.2.start)) =
      amendedSegments pane (a :: b :: rest) := by
  intro rest
  induction rest with
  | nil => intro a b; rfl
  | cons c rest' ih =>
    intro a b
    show (listSlice pane (a.stop + 1) b.start) ::
        (((b :: c :: rest').zip (c :: rest')).map
          (fun ab => listSlice pane (ab.1.stop + 1) ab.2.start)) =
      (listSlice pane (a.stop + 1) b.start) :: amendedSegments pane (b :: c :: rest')
    rw [ih b c]

theorem combine_eq_amended (pane : List Char) (ms : List PSMatch) :
    combineOutputsBetweenMatches pane ms = amendedOutput pane ms := by
  match ms with
  | [] => rfl
  | [m] => rfl
  | a :: b :: rest =>
    have h1 : combineOutputsBetweenMatches pane (a :: b :: rest) =
        (let segs := ((a :: b :: rest).zip (b :: rest)).map
          (fun ab => listSlice pane (ab.1.stop + 1) ab.2.start);
         if segs.isEmpty then [] else List.intercalate ['\n'] segs ++ ['\n']) := rfl
    rw [h1, zipSegments_eq_amended pane rest a b]
    show (if False then ([] : List Char) else _) = _
    · rw [if_neg (by exact fun h => h.elim)]
      rfl

/-- C1: for every accumulated buffer with at least one valid marker match,
the decoded output is the amended attribution — the whole buffer before
the single match, or for several matches the newline-join of the segments
running from one character past each match's end to the next match's
start plus a trailing newline — and the last valid match supplies the
metadata (via `from_ps1_match`, whose outcome the read propagates). -/
theorem decode_output_and_last_metadata (pane : List Char) (ms : List PSMatch)
    (hms : ms = matchesPS1Metadata pane) (m : PSMatch)
    (hlast : ms.getLast? = some m) :
    combineOutputsBetweenMatches pane ms = amendedOutput pane ms ∧
    decodeAccumulated pane =
      (fromPS1Match m.inner).map (fun md => (amendedOutput pane ms, some md)) := by
  subst hms
  refine ⟨combine_eq_amended pane _, ?_⟩
  have h0 : decodeAccumulated pane =
      (match (matchesPS1Metadata pane).getLast? with
       | none => .ok (combineOutputsBetweenMatches pane (matchesPS1Metadata pane), none)
       | some m =>
         match fromPS1Match m.inner with
         | .ok md => .ok (combineOutputsBetweenMatches pane (matchesPS1Metadata pane), some md)
         | .error e => .error e) := rfl
  rw [h0, hlast]
  cases hf : fromPS1Match m.inner with
  | ok md => simp [hf, Except.map, combine_eq_amended]
  | error e => simp [hf, Except.map]

/-- C1 counterexample: on a buffer with two valid matches separated by the
bytes newline-A-B-newline, the code's output (`AB` newline newline) is not
the bytes strictly between the previous match's end and the current
match's start (newline `AB` newline): the slice starts one byte late and a
newline is appended. -/
theorem combine_differs_from_claim :
    (matchesPS1Metadata cePane).length = 2 ∧
    combineOutputsBetweenMatches cePane (matchesPS1Metadata cePane) ≠
      claimedOutputBetween cePane (matchesPS1Metadata cePane) := by
  constructor
  · decide
  · decide

/-- C1 witness: the attribution theorem at a buffer with one valid match
(the match is the concrete scan result). -/
theorem decode_output_witness :
    (matchesPS1Metadata onePane).getLast? =
      some ⟨10, 53, "\n\x7b\"exit_code\": 0\x7d\n".data⟩ ∧
    (combineOutputsBetweenMatches onePane (matchesPS1Metadata onePane) =
      amendedOutput onePane (matchesPS1Metadata onePane) ∧
    decodeAccumulated onePane =
      (fromPS1Match ("\n\x7b\"exit_code\": 0\x7d\n".data)).map
        (fun md => (amendedOutput onePane (matchesPS1Metadata onePane), some md))) :=
  ⟨by decide,
   decode_output_and_last_metadata onePane (matchesPS1Metadata onePane) rfl
     ⟨10, 53, "\n\x7b\"exit_code\": 0\x7d\n".data⟩ (by decide)⟩

/-- C2 counterexample: when the primary read finds no valid match but the
secondary read after the interrupt sees a marker whose valid JSON is not
an object (here the document `0`), metadata construction raises an
AttributeError that escapes `send_command`, so the call does not return a
timeout-sentinel CommandResult. -/
theorem sendCommand_timeout_raises :
    readRawOutput [("garbage".data)] = .ok ("garbage".data, none) ∧
    sendCommand ("sleep 5".data) [("garbage".data)] [ceBadMarkerChunk] =
      .error .attributeError :=
  ⟨rfl, rfl⟩

/-- C2: when the primary read returns no metadata (no valid marker before
the caller's timeout) and the secondary bounded read decodes without
raising, `send_command` returns a CommandResult whose output is the
primary output, the secondary output and the terminal timeout marker
concatenated, and whose metadata is present with exit code 124 —
synthesized with default fields when the secondary read found no match,
otherwise the secondary metadata with its exit code forced — the amended
claim. -/
theorem sendCommand_timeout_result (cmd : List Char) (p s2 : List (List Char))
    (out kout : List Char) (kmd : Option CmdOutputMetadata)
    (hp : readRawOutput p = .ok (out, none))
    (hs : readRawOutput s2 = .ok (kout, kmd)) :
    sendCommand cmd p s2 = .ok
      ((if cmd.getLast? = some '\n' then cmd else cmd ++ ['\n']),
       ⟨out ++ kout ++ timeoutMarkerText,
        some (match kmd with
              | some km => { km with exit_code := TIMEOUT_EXIT_CODE }
              | none => { exit_code := TIMEOUT_EXIT_CODE })⟩) := by
  cases kmd <;> simp [sendCommand, hp, hs, Except.bind, bind]

/-- C2 witness: the timeout theorem where neither read yields any chunk:
the result carries the synthesized sentinel metadata and the terminal
marker. -/
theorem sendCommand_timeout_witness :
    readRawOutput ([] : List (List Char)) = .ok ([], none) ∧
    sendCommand ("sleep 5".data) [] [] = .ok
      ((if ("sleep 5".data).getLast? = some '\n' then "sleep 5".data
        else "sleep 5".data ++ ['\n']),
       ⟨[] ++ [] ++ timeoutMarkerText,
        some (match (none : Option CmdOutputMetadata) with
              | some km => { km with exit_code := TIMEOUT_EXIT_CODE }
              | none => { exit_code := TIMEOUT_EXIT_CODE })⟩) :=
  ⟨rfl, sendCommand_timeout_result ("sleep 5".data) [] [] [] [] none rfl rfl⟩

/-- C3 counterexample: a reply holding two recognized tags (a command
block and a submit block) parses to the higher-priority command action
instead of failing. -/
theorem parse_two_tags_succeeds :
    setupTagHits ceTwoTags = 2 ∧
    parseSetupAction ceTwoTags = some (.command ("ls".data)) := by
  exact ⟨by decide, by decide⟩

/-- C3: parsing an agent reply fails (returning no action, never crashing)
exactly when no recognized tag with nonempty content is present; when at
least one is present, the parser returns the action of the
highest-priority present tag (command, search, submit for the rebuild
agent; submit, python, command, search for the verify agent) even when
several recognized tags are present — the amended claim. -/
theorem parse_tag_priority (r : List Char) :
    (parseSetupAction r = none ↔
      ((extractTagContent r tagCommand).isEmpty ∧
       (extractTagContent r tagSearch).isEmpty ∧
       (extractTagContent r tagSubmit).isEmpty)) ∧
    ((extractTagContent r tagCommand).isEmpty = false →
      parseSetupAction r = some (.command (extractTagContent r tagCommand))) ∧
    ((extractTagContent r tagCommand).isEmpty = true →
      (extractTagContent r tagSearch).isEmpty = false →
      parseSetupAction r = some (.search (extractTagContent r tagSearch))) ∧
    ((extractTagContent r tagCommand).isEmpty = true →
      (extractTagContent r tagSearch).isEmpty = true →
      (extractTagContent r tagSubmit).isEmpty = false →
      parseSetupAction r = some (.submit (extractTagContent r tagSubmit))) ∧
    (parseVerifyAction r = none ↔
      ((extractTagContent r tagSubmit).isEmpty ∧
       (extractTagContent r tagPython).isEmpty ∧
       (extractTagContent r tagCommand).isEmpty ∧
       (extractTagContent r tagSearch).isEmpty)) ∧
    ((extractTagContent r tagSubmit).isEmpty = false →
      parseVerifyAction r = some (.submit (extractTagContent r tagSubmit))) ∧
    ((extractTagContent r tagSubmit).isEmpty = true →
      (extractTagContent r tagPython).isEmpty = false →
      parseVerifyAction r = some (.python (extractTagContent r tagPython))) ∧
    ((extractTagContent r tagSubmit).isEmpty = true →
      (extractTagContent r tagPython).isEmpty = true →
      (extractTagContent r tagCommand).isEmpty = false →
      parseVerifyAction r = some (.command (extractTagContent r tagCommand))) ∧
    ((extractTagContent r tagSubmit).isEmpty = true →
      (extractTagContent r tagPython).isEmpty = true →
      (extractTagContent r tagCommand).isEmpty = true →
      (extractTagContent r tagSearch).isEmpty = false →
      parseVerifyAction r = some (.search (extractTagContent r tagSearch))) := by
  unfold parseSetupAction parseVerifyAction cleanResponse
  cases hc : (extractTagContent r tagCommand).isEmpty <;>
    cases hse : (extractTagContent r tagSearch).isEmpty <;>
      cases hsu : (extractTagContent r tagSubmit).isEmpty <;>
        cases hpy : (extractTagContent r tagPython).isEmpty <;>
          simp [hc, hse, hsu, hpy]

/-- C3 witness: the priority theorem at a reply whose only recognized tag
is a search block. -/
theorem parse_tag_priority_witness :
    (extractTagContent ("<search>q</search>".data) tagCommand).isEmpty = true ∧
    (extractTagContent ("<search>q</search>".data) tagSearch).isEmpty = false ∧
    parseSetupAction ("<search>q</search>".data) =
      some (.search (extractTagContent ("<search>q</search>".data) tagSearch)) :=
  ⟨by decide, by decide,
   (parse_tag_priority ("<search>q</search>".data)).2.2.1 (by decide) (by decide)⟩


/-- C5: with automatic verification, a submit does not immediately stop
the rebuild loop — the payload is executed through the Session and judged;
a negative verdict appends a corrective turn carrying the failure
transcript and continues the loop on the same outer step budget, and a
positive verdict ends the loop with the submitted payload as the final
answer: a run whose first submit is rejected and whose second submit is
accepted ends successfully with the second payload, the corrective turn
sitting between the two replies. -/
theorem organizeSetup_submit_verify
    (llm : Nat → List Msg → Except PyErr (List Char))
    (session : List Char → Except PyErr CommandResult)
    (searchO : List Char → List Char)
    (timeExpired : Nat → Bool)
    (P : List Msg) (m : Nat)
    (a b r1 r2 j1 j2 : List Char) (resA resB : CommandResult)
    (hl0 : ∀ c, llm 0 c = .ok r1)
    (hp1 : parseSetupAction r1 = some (.submit a))
    (hsA : session a = .ok resA)
    (hl1 : ∀ c, llm 1 c = .ok j1)
    (hj1 : (((pyStripChars j1).map Char.toUpper) == "SUCCESS".data) = false)
    (hl2 : ∀ c, llm 2 c = .ok r2)
    (hp2 : parseSetupAction r2 = some (.submit b))
    (hsB : session b = .ok resB)
    (hl3 : ∀ c, llm 3 c = .ok j2)
    (hj2 : (((pyStripChars j2).map Char.toUpper) == "SUCCESS".data) = true)
    (ht : ∀ k, timeExpired k = false)
    (hb : b.isEmpty = false) :
    organizeSetup llm session searchO timeExpired P (m + 2) = .ok
      { messages := P ++ [Msg.ai r1,
          Msg.human (enforcedVerificationText a (toObservation resA true)),
          Msg.ai r2],
        commands := [],
        setup_messages := (P ++ [Msg.ai r1,
          Msg.human (enforcedVerificationText a (toObservation resA true)),
          Msg.ai r2]).drop P.length,
        setup_commands := [b],
        success := true } := by
  have hloop : organizeSetupLoop llm session searchO timeExpired P.length
      (m + 2) 0 0 P [] = .ok (some b,
        P ++ [Msg.ai r1,
          Msg.human (enforcedVerificationText a (toObservation resA true)),
          Msg.ai r2], []) := by
    have e1 : organizeSetupLoop llm session searchO timeExpired P.length
        (m + 2) 0 0 P [] =
      organizeSetupLoop llm session searchO timeExpired P.length
        (m + 1) 1 2 (P ++ [Msg.ai r1] ++
          [Msg.human (enforcedVerificationText a (toObservation resA true))]) [] := by
      show organizeSetupLoop llm session searchO timeExpired P.length
        (m + 1 + 1) 0 0 P [] = _
      conv_lhs => unfold organizeSetupLoop
      rw [ht 0]
      simp only [Bool.false_eq_true, if_false]
      rw [hl0]
      simp only [Except.bind, bind]
      rw [hp1]
      simp only [observationForSetupAction, Except.bind, bind]
      rw [hsA]
      simp only [Except.bind, bind]
      rw [hl1]
      simp only [analyzeVerificationWithLLM, Except.bind, bind, hj1]
      simp
    have e2 : organizeSetupLoop llm session searchO timeExpired P.length
        (m + 1) 1 2 (P ++ [Msg.ai r1] ++
          [Msg.human (enforcedVerificationText a (toObservation resA true))]) [] =
      .ok (some b,
        P ++ [Msg.ai r1,
          Msg.human (enforcedVerificationText a (toObservation resA true)),
          Msg.ai r2], []) := by
      unfold organizeSetupLoop
      rw [ht 1]
      simp only [Bool.false_eq_true, if_false]
      rw [hl2]
      simp only [Except.bind, bind]
      rw [hp2]
      simp only [observationForSetupAction, Except.bind, bind]
      rw [hsB]
      simp only [Except.bind, bind]
      rw [hl3]
      simp only [analyzeVerificationWithLLM, Except.bind, bind, hj2]
      simp [List.append_assoc]
    rw [e1, e2]
  simp only [organizeSetup]
  rw [hloop]
  simp [Except.bind, bind, hb]

/-- C5 witness: the submit-verify theorem at the concrete oracle, an
echoing session and an empty prefix. -/
theorem organizeSetup_submit_verify_witness :
    organizeSetup (fun k _ => .ok (c5Oracle k))
        (fun c => .ok ⟨c, none⟩) (fun _ => []) (fun _ => false) [] (0 + 2) = .ok
      { messages := [] ++ [Msg.ai (c5Oracle 0),
          Msg.human (enforcedVerificationText ("make".data)
            (toObservation ⟨"make".data, none⟩ true)),
          Msg.ai (c5Oracle 2)],
        commands := [],
        setup_messages := (([] : List Msg) ++ [Msg.ai (c5Oracle 0),
          Msg.human (enforcedVerificationText ("make".data)
            (toObservation ⟨"make".data, none⟩ true)),
          Msg.ai (c5Oracle 2)]).drop ([] : List Msg).length,
        setup_commands := [("make -j".data)],
        success := true } :=
  organizeSetup_submit_verify
    (fun k _ => .ok (c5Oracle k)) (fun c => .ok ⟨c, none⟩) (fun _ => []) (fun _ => false)
    [] 0 ("make".data) ("make -j".data) (c5Oracle 0) (c5Oracle 2) (c5Oracle 1) (c5Oracle 3)
    ⟨"make".data, none⟩ ⟨"make -j".data, none⟩
    (fun _ => rfl) (by decide) rfl
    (fun _ => rfl) (by decide)
    (fun _ => rfl) (by decide) rfl
    (fun _ => rfl) (by decide)
    (fun _ => rfl) (by decide)

theorem range_flatMap_shift {α : Type} (g : Nat → List α) (n step : Nat) :
    (List.range (n + 1)).flatMap (fun k => g (step + k)) =
      g step ++ (List.range n).flatMap (fun k => g (step + 1 + k)) := by
  rw [List.range_succ_eq_map, List.flatMap_cons]
  have h0 : step + 0 = step := rfl
  rw [h0]
  congr 1
  rw [List.flatMap_map]
  congr 1
  funext a
  congr 1
  omega

/-- Every iteration of the verify loop on an unparsable reply appends the
reply and one corrective format-reminder observation and consumes one
step, leaving commands, the parser and the nonlocal variables untouched,
until fuel (the remaining step budget) runs out with no answer. -/
theorem testLoop_all_unparsable
    (llm : Nat → List Msg → Except PyErr (List Char))
    (session : List Char → Except PyErr CommandResult)
    (searchO : List Char → List Char)
    (runParserO : List Char → List Char → Except PyErr (List (List Char × List Char)))
    (timeExpired : Nat → Bool) (prefixLen : Nat)
    (replies : Nat → List Char)
    (hl : ∀ k c, llm k c = .ok (replies k))
    (hp : ∀ k, parseVerifyAction (replies k) = none)
    (ht : ∀ k, timeExpired k = false) :
    ∀ (fuel step : Nat) (messages : List Msg) (commands : List (List Char))
      (parserScript : List Char) (vars : VerifyVars),
    organizeTestCmdLoop llm session searchO runParserO timeExpired prefixLen
        fuel step messages commands parserScript vars =
      .ok (none,
        messages ++ (List.range fuel).flatMap
          (fun k => [Msg.ai (replies (step + k)),
                     Msg.human (observationTurnText verifyFormatReminder)]),
        commands, parserScript, vars) := by
  intro fuel
  induction fuel with
  | zero =>
    intro step messages commands parserScript vars
    simp [organizeTestCmdLoop]
  | succ n ih =>
    intro step messages commands parserScript vars
    conv_lhs => unfold organizeTestCmdLoop
    rw [ht step]
    simp only [Bool.false_eq_true, if_false]
    rw [hl step]
    simp only [Except.bind, bind]
    rw [hp step]
    simp only [observationForVerifyAction, Except.bind, bind]
    rw [ih (step + 1) (messages ++ [Msg.ai (replies step)] ++
      [Msg.human (observationTurnText verifyFormatReminder)]) commands parserScript vars]
    rw [range_flatMap_shift
      (fun k => [Msg.ai (replies k), Msg.human (observationTurnText verifyFormatReminder)]) n step]
    simp [List.append_assoc]

/-- C7: when every agent reply fails to parse and the wall-clock deadline
never fires, `organize_test_cmd` performs exactly `max_steps` iterations,
each appending the reply and one corrective format-reminder observation,
and then ends by budget exhaustion with no final answer and without
raising — never earlier, never later. -/
theorem organizeTestCmd_exhausts_budget
    (llm : Nat → List Msg → Except PyErr (List Char))
    (session : List Char → Except PyErr CommandResult)
    (searchO : List Char → List Char)
    (runParserO : List Char → List Char → Except PyErr (List (List Char × List Char)))
    (timeExpired : Nat → Bool) (P : List Msg) (maxSteps : Nat)
    (replies : Nat → List Char)
    (hl : ∀ k c, llm k c = .ok (replies k))
    (hp : ∀ k, parseVerifyAction (replies k) = none)
    (ht : ∀ k, timeExpired k = false)
    (_hms : 0 < maxSteps) :
    organizeTestCmdLoop llm session searchO runParserO timeExpired P.length
        maxSteps 0 P [] [] ⟨[], [], [], [], 0⟩ =
      .ok (none,
        P ++ (List.range maxSteps).flatMap
          (fun k => [Msg.ai (replies k),
                     Msg.human (observationTurnText verifyFormatReminder)]),
        [], [], ⟨[], [], [], [], 0⟩) ∧
    organizeTestCmd llm session searchO runParserO timeExpired P maxSteps =
      .ok { messages := P ++ (List.range maxSteps).flatMap
              (fun k => [Msg.ai (replies k),
                         Msg.human (observationTurnText verifyFormatReminder)]),
            verify_messages := (List.range maxSteps).flatMap
              (fun k => [Msg.ai (replies k),
                         Msg.human (observationTurnText verifyFormatReminder)]),
            test_commands := [[]], print_commands := [[]], commands := [],
            parser := [], test_status := none, success := false } := by
  have hloop := testLoop_all_unparsable llm session searchO runParserO timeExpired
    P.length replies hl hp ht maxSteps 0 P [] [] ⟨[], [], [], [], 0⟩
  have hz : (fun k => [Msg.ai (replies (0 + k)),
      Msg.human (observationTurnText verifyFormatReminder)]) =
      (fun k => [Msg.ai (replies k), Msg.human (observationTurnText verifyFormatReminder)]) := by
    funext k
    rw [Nat.zero_add]
  rw [hz] at hloop
  refine ⟨hloop, ?_⟩
  simp only [organizeTestCmd]
  rw [hloop]
  simp only [Except.bind, bind]
  have hjson : jsonParseDoc ([] : List Char) = none := rfl
  simp [List.drop_left, hjson]

/-- C7 witness: the budget-exhaustion theorem at a constant unparsable
reply, a one-turn prefix and a budget of two steps. -/
theorem organizeTestCmd_exhausts_budget_witness :
    organizeTestCmdLoop (fun _ _ => .ok ("hi".data)) (fun _ => .error .valueError)
        (fun _ => []) (fun _ _ => .ok []) (fun _ => false)
        ([Msg.system ("s".data)] : List Msg).length
        2 0 [Msg.system ("s".data)] [] [] ⟨[], [], [], [], 0⟩ =
      .ok (none,
        [Msg.system ("s".data)] ++ (List.range 2).flatMap
          (fun _ => [Msg.ai ("hi".data),
                     Msg.human (observationTurnText verifyFormatReminder)]),
        [], [], ⟨[], [], [], [], 0⟩) ∧
    organizeTestCmd (fun _ _ => .ok ("hi".data)) (fun _ => .error .valueError)
        (fun _ => []) (fun _ _ => .ok []) (fun _ => false) [Msg.system ("s".data)] 2 =
      .ok { messages := [Msg.system ("s".data)] ++ (List.range 2).flatMap
              (fun _ => [Msg.ai ("hi".data),
                         Msg.human (observationTurnText verifyFormatReminder)]),
            verify_messages := (List.range 2).flatMap
              (fun _ => [Msg.ai ("hi".data),
                         Msg.human (observationTurnText verifyFormatReminder)]),
            test_commands := [[]], print_commands := [[]], commands := [],
            parser := [], test_status := none, success := false } :=
  organizeTestCmd_exhausts_budget (fun _ _ => .ok ("hi".data)) (fun _ => .error .valueError)
    (fun _ => []) (fun _ _ => .ok []) (fun _ => false) [Msg.system ("s".data)] 2
    (fun _ => "hi".data) (fun _ _ => rfl)
    (fun _ => (by decide : parseVerifyAction ("hi".data) = none)) (fun _ => rfl) (by decide)
